import Mathlib

set_option maxRecDepth 8000

/-!
Verification development for the cosmos-particles repository.

Shallow embedding of the gesture interpreter (src/hooks/useHandGesture.ts,
src/components/HandTracker.tsx), the particle simulation state machine and
trail buffer (src/components/ParticleGestureSystem.tsx), the session
persistence validator (loadSession in ParticleGestureSystem.tsx), and the
shape-template generators (src/lib/particleTemplates.ts).

JavaScript numbers are modelled as real numbers; Float32Array position /
velocity stores are modelled as total functions from the index to the reals,
with the source's loop bounds reproduced as index guards.  Math.random()
streams are modelled as an explicit function from the call index to a real
in the interval including 0 and excluding 1.
-/

/-- A single MediaPipe hand landmark, normalized image coordinates. -/
structure Landmark where
  x : ℝ
  y : ℝ
  z : ℝ

/-- A detected hand: 21 landmarks, indexed 0..20 (wrist = 0, middle MCP = 9).
Modelled as a total indexing function. -/
def Hand : Type := ℕ → Landmark

/-- Euclidean distance between two landmarks, as computed inline in both
calculateFingerOpenness (useHandGesture.ts) and calculateTension
(HandTracker.tsx): Math.sqrt of the sum of squared coordinate differences. -/
noncomputable def dist3 (a b : Landmark) : ℝ :=
  Real.sqrt ((a.x - b.x) ^ 2 + (a.y - b.y) ^ 2 + (a.z - b.z) ^ 2)

/-- Finger tip landmark indices: thumb, index, middle, ring, pinky
(useHandGesture.ts line 65, HandTracker.tsx line 29). -/
def fingerTips : List ℕ := [4, 8, 12, 16, 20]

/-- Finger base (MCP) landmark indices (useHandGesture.ts line 66,
HandTracker.tsx line 30). -/
def fingerBases : List ℕ := [2, 5, 9, 13, 17]

/-- One finger's openness contribution, shared loop body of
calculateFingerOpenness (useHandGesture.ts lines 70-85) and
calculateTension (HandTracker.tsx lines 43-55):
tip and base distances to the wrist, guarded quotient, then
clamp((rat - 1.0) / 1.2, 0, 1). -/
noncomputable def fingerOpennessTB (lm : Hand) (tip base : ℕ) : ℝ :=
  let wrist := lm 0
  let tipDist := dist3 (lm tip) wrist
  let baseDist := dist3 (lm base) wrist
  let rat := if baseDist > 0 then tipDist / baseDist else 0
  max 0 (min 1 ((rat - 1.0) / 1.2))

/-- calculateFingerOpenness (useHandGesture.ts lines 59-88): average of the
five per-finger openness values.  Note: this function has no palm-size
guard. -/
noncomputable def calculateFingerOpenness (lm : Hand) : ℝ :=
  (((fingerTips.zip fingerBases).map fun p => fingerOpennessTB lm p.1 p.2).sum)
    / (fingerTips.length : ℝ)

/-- Palm size: distance from the middle-finger MCP (landmark 9) to the wrist
(landmark 0), as computed in calculateTension (HandTracker.tsx lines 33-38). -/
noncomputable def palmSize (lm : Hand) : ℝ := dist3 (lm 9) (lm 0)

/-- calculateTension (HandTracker.tsx lines 24-60): if the palm size is below
0.001 return 0, otherwise average the five per-finger openness values and
return clamp(1 - avgOpenness, 0, 1). -/
noncomputable def calculateTension (lm : Hand) : ℝ :=
  if palmSize lm < 0.001 then 0
  else
    let avgOpenness :=
      (((fingerTips.zip fingerBases).map fun p => fingerOpennessTB lm p.1 p.2).sum)
        / (fingerTips.length : ℝ)
    max 0 (min 1 (1 - avgOpenness))

/-- Smoothed accumulator state of HandTracker.tsx (smoothedRef, lines 18-22). -/
structure HandSmoothed where
  tension : ℝ
  centerX : ℝ
  centerY : ℝ

/-- processResults (HandTracker.tsx lines 169-220): with zero hands, decay the
smoothed values toward the neutral defaults (tension toward 0 with factor
0.95, center toward (0.5, 0.5) with rate 0.05); otherwise average per-hand
tension and palm centers and apply exponential smoothing with factor 0.35.
The value passed to onUpdate is exactly the updated smoothed state, which is
what this embedding returns. -/
noncomputable def processResults (landmarks : List Hand) (s : HandSmoothed) :
    HandSmoothed :=
  let handsDetected := landmarks.length
  if handsDetected = 0 then
    { tension := s.tension * 0.95
      centerX := s.centerX + (0.5 - s.centerX) * 0.05
      centerY := s.centerY + (0.5 - s.centerY) * 0.05 }
  else
    let totalTension := (landmarks.map fun lm => calculateTension lm).sum
    let totalX := (landmarks.map fun lm => ((lm 0).x + (lm 9).x) / 2).sum
    let totalY := (landmarks.map fun lm => ((lm 0).y + (lm 9).y) / 2).sum
    let tension := totalTension / (handsDetected : ℝ)
    let centerX := totalX / (handsDetected : ℝ)
    let centerY := totalY / (handsDetected : ℝ)
    let smooth := (0.35 : ℝ)
    { tension := s.tension + (tension - s.tension) * smooth
      centerX := s.centerX + (centerX - s.centerX) * smooth
      centerY := s.centerY + (centerY - s.centerY) * smooth }

/-- The zero-hands decay trajectory of the claim: repeated processResults
invocations with an empty landmark list, starting from smoothed
tension = 1, centerX = 0.1 (centerY at its neutral default 0.5). -/
noncomputable def decaySeq (n : ℕ) : HandSmoothed :=
  (fun st => processResults [] st)^[n] { tension := 1, centerX := 0.1, centerY := 0.5 }

/-- getHandCenter (useHandGesture.ts lines 90-98): palm center as the average
of the wrist and middle-finger MCP landmarks. -/
noncomputable def getHandCenter (lm : Hand) : ℝ × ℝ :=
  (((lm 0).x + (lm 9).x) / 2, ((lm 0).y + (lm 9).y) / 2)

/-- Smoothed accumulator state of useHandGesture.ts (smoothedRef,
lines 116-123). -/
structure SmoothedG where
  distance : ℝ
  leftOpenness : ℝ
  rightOpenness : ℝ
  scale : ℝ
  centerX : ℝ
  centerY : ℝ

/-- The numeric fields of the GestureState snapshot produced by each
onResults invocation (useHandGesture.ts lines 266-280). -/
structure GestureOut where
  handsDetected : ℕ
  distance : ℝ
  leftOpenness : ℝ
  rightOpenness : ℝ
  averageOpenness : ℝ
  tension : ℝ
  scale : ℝ
  centerX : ℝ
  centerY : ℝ

/-- Hand assignment loop (useHandGesture.ts lines 200-209): MediaPipe mirrors
the video, so a provider label of Left is stored as the user's right hand and
anything else as the left hand; later entries overwrite earlier ones.
Result: (leftHand, rightHand). -/
def assignHands (hands : List (Hand × String)) : Option Hand × Option Hand :=
  hands.foldl
    (fun acc p => if p.2 = ("Left") then (acc.1, some p.1) else (some p.1, acc.2))
    (none, none)

/-- onResults (useHandGesture.ts lines 191-286), numeric part: computes
per-hand openness, two-hand distance and center, average openness, tension
clamp(1 - averageOpenness, 0, 1), the combined scale, and applies exponential
smoothing with factor 0.35 to the smoothed accumulator; returns the
GestureState snapshot written to dataRef.  In the source, leftOpenness and
rightOpenness are 0 when the corresponding hand is absent, so the inner
ternaries of the averageOpenness expression reduce to leftO + rightO. -/
noncomputable def onResults (hands : List (Hand × String)) (s : SmoothedG) :
    GestureOut :=
  let lr := assignHands hands
  let handsDetected := hands.length
  let leftO := match lr.1 with
    | some h => calculateFingerOpenness h
    | none => 0
  let rightO := match lr.2 with
    | some h => calculateFingerOpenness h
    | none => 0
  let dcc : ℝ × ℝ × ℝ :=
    match lr.1, lr.2 with
    | some lh, some rh =>
      let lc := getHandCenter lh
      let rc := getHandCenter rh
      let rawDist := Real.sqrt ((lc.1 - rc.1) ^ 2 + (lc.2 - rc.2) ^ 2)
      (min 1 (rawDist / 0.8), ((lc.1 + rc.1) / 2, (lc.2 + rc.2) / 2))
    | some lh, none => let c := getHandCenter lh; (s.distance, (c.1, c.2))
    | none, some rh => let c := getHandCenter rh; (s.distance, (c.1, c.2))
    | none, none => (s.distance, (s.centerX, s.centerY))
  let distance := dcc.1
  let centerX := dcc.2.1
  let centerY := dcc.2.2
  let averageOpenness :=
    if handsDetected > 0 then (leftO + rightO) / (handsDetected : ℝ) else 0
  let distanceScale := 0.3 + distance * 1.7
  let opennessScale := 0.5 + averageOpenness * 0.5
  let rawScale := distanceScale * opennessScale
  let smooth := (0.35 : ℝ)
  let tension := max 0 (min 1 (1 - averageOpenness))
  { handsDetected := handsDetected
    distance := s.distance + (distance - s.distance) * smooth
    leftOpenness := s.leftOpenness + (leftO - s.leftOpenness) * smooth
    rightOpenness := s.rightOpenness + (rightO - s.rightOpenness) * smooth
    averageOpenness := averageOpenness
    tension := tension
    scale := s.scale + (rawScale - s.scale) * smooth
    centerX := s.centerX + (centerX - s.centerX) * smooth
    centerY := s.centerY + (centerY - s.centerY) * smooth }

/-- Spec-side clamp to the unit interval, written from the spec sentence
"tension = clamp(1 - averageOpenness, 0, 1)". -/
noncomputable def specClamp01 (x : ℝ) : ℝ := max 0 (min 1 x)

/-! ## Particle simulation state machine (ParticleGestureSystem.tsx) -/

/-- PARTICLE_COUNT (ParticleGestureSystem.tsx line 9). -/
def PARTICLE_COUNT : ℕ := 55000

/-- TRAIL_LENGTH (ParticleGestureSystem.tsx line 10). -/
def TRAIL_LENGTH : ℕ := 2

/-- LERP_SPEED, the idle spring constant (ParticleGestureSystem.tsx line 13). -/
noncomputable def LERP_SPEED : ℝ := 0.06

/-- The transition mode enum (ParticleGestureSystem.tsx line 16). -/
inductive TransitionMode
  | morph
  | explode
  | vortex
deriving DecidableEq

/-- The explosion phase field of explosionRef
(ParticleGestureSystem.tsx line 78). -/
inductive Phase
  | idle
  | exploding
  | reforming
deriving DecidableEq

/-- The mutable simulation state accessed by the animation loop: the
explosionRef record (phase, progress, active, burstVelocities,
pendingTarget), the position/velocity/target Float32Arrays, the gesture
scale/offset refs, and the trail buffers with the trail frame counter.
Float32Arrays are modelled as total functions from the flat index. -/
structure SimState where
  phase : Phase
  active : Bool
  progress : ℝ
  current : ℕ → ℝ
  vel : ℕ → ℝ
  target : ℕ → ℝ
  burstVelocities : Option (ℕ → ℝ)
  pendingTarget : Option (ℕ → ℝ)
  gestureScale : ℝ
  offsetX : ℝ
  offsetY : ℝ
  offsetZ : ℝ
  trailPos : ℕ → ℝ
  trailAlpha : ℕ → ℝ
  trailFrame : ℕ

/-- The per-frame gesture control signals read from the gesture dataRef
(ParticleGestureSystem.tsx lines 621-637). -/
structure GestureInput where
  handsDetected : ℕ
  scale : ℝ
  centerX : ℝ
  centerY : ℝ
  averageOpenness : ℝ

/-- Burst velocity field for mode explode (triggerTransition,
ParticleGestureSystem.tsx lines 152-165): radial outward direction scaled by
a random force in 50..150 plus a shared random chaos term in -15..15; the
radial distance is guarded against zero by the JavaScript idiom
`Math.sqrt(...) || 0.01`.  Each particle consumes two random values. -/
noncomputable def explodeBurst (rng : ℕ → ℝ) (cur : ℕ → ℝ) : ℕ → ℝ := fun j =>
  let i := j / 3
  let x := cur (3 * i)
  let y := cur (3 * i + 1)
  let z := cur (3 * i + 2)
  let d0 := Real.sqrt (x * x + y * y + z * z)
  let dist := if d0 = 0 then 0.01 else d0
  let force := 50.0 + rng (2 * i) * 100.0
  let chaos := (rng (2 * i + 1) - 0.5) * 30.0
  (cur j / dist) * force + chaos

/-- Burst velocity field for mode vortex (triggerTransition,
ParticleGestureSystem.tsx lines 166-177): tangential (-z, jitter, x) spin
scaled by a random force in 0.2..0.5 plus small per-component jitter.
Each particle consumes four random values (force, then one jitter per
component in source order). -/
noncomputable def vortexBurst (rng : ℕ → ℝ) (cur : ℕ → ℝ) : ℕ → ℝ := fun j =>
  let i := j / 3
  let x := cur (3 * i)
  let z := cur (3 * i + 2)
  let force := 0.2 + rng (4 * i) * 0.3
  match j % 3 with
  | 0 => -z * force + (rng (4 * i + 1) - 0.5) * 0.1
  | 1 => (rng (4 * i + 2) - 0.5) * 0.2
  | _ => x * force + (rng (4 * i + 3) - 0.5) * 0.1

/-- triggerTransition (ParticleGestureSystem.tsx lines 130-186): mode morph
only replaces the target array and returns; modes explode and vortex compute
burst velocities from the current positions, store the new target as
pendingTarget, and enter the exploding phase with progress 0 and the
transition marked active. -/
noncomputable def triggerTransition (mode : TransitionMode) (rng : ℕ → ℝ)
    (newTarget : ℕ → ℝ) (s : SimState) : SimState :=
  match mode with
  | .morph => { s with target := newTarget }
  | .explode =>
    { s with burstVelocities := some (explodeBurst rng s.current)
             pendingTarget := some newTarget
             phase := .exploding
             progress := 0
             active := true }
  | .vortex =>
    { s with burstVelocities := some (vortexBurst rng s.current)
             pendingTarget := some newTarget
             phase := .exploding
             progress := 0
             active := true }

/-- Gesture offset lookup `offsets[i % 3]` where
offsets = [offset.x, offset.y, offset.z]
(ParticleGestureSystem.tsx lines 674 and 699). -/
noncomputable def offsetAt (s : SimState) (k : ℕ) : ℝ :=
  if k % 3 = 0 then s.offsetX else if k % 3 = 1 then s.offsetY else s.offsetZ

/-- Gesture scale / offset update at the start of each animation frame
(ParticleGestureSystem.tsx lines 621-637): with hands detected the scale
chases the gesture scale at rate 0.18 and the offset follows the hand
position at an openness-dependent rate; with no hands the scale relaxes
toward 1 at rate 0.04 and the offsets decay by 0.96.  Only the gestureScale
and offset fields change. -/
noncomputable def gestureUpdate (g : GestureInput) (s : SimState) : SimState :=
  if g.handsDetected > 0 then
    let handWorldX := (0.5 - g.centerX) * 50
    let handWorldY := (0.5 - g.centerY) * 35
    let followSpeed := 0.06 + g.averageOpenness * 0.08
    { s with gestureScale := s.gestureScale + (g.scale - s.gestureScale) * 0.18
             offsetX := s.offsetX + (handWorldX - s.offsetX) * followSpeed
             offsetY := s.offsetY + (handWorldY - s.offsetY) * followSpeed
             offsetZ := s.offsetZ * 0.95 }
  else
    { s with gestureScale := s.gestureScale + (1.0 - s.gestureScale) * 0.04
             offsetX := s.offsetX * 0.96
             offsetY := s.offsetY * 0.96
             offsetZ := s.offsetZ * 0.96 }

/-- Per-particle speed from the velocity array,
`Math.sqrt(vx*vx + vy*vy + vz*vz)` (ParticleGestureSystem.tsx line 741). -/
noncomputable def particleSpeed (vel : ℕ → ℝ) (i : ℕ) : ℝ :=
  Real.sqrt (vel (3 * i) * vel (3 * i) + vel (3 * i + 1) * vel (3 * i + 1) +
    vel (3 * i + 2) * vel (3 * i + 2))

/-- Trail-alpha part of the throttled trail update (ParticleGestureSystem.tsx
lines 716-743): slot k is copied from slot k-1 with the stored alpha decayed
by 0.65 (with TRAIL_LENGTH = 2 this is the single shift slot 1 <- slot 0),
then slot 0 is rewritten as min(0.5, speed * 4.0) from the live velocities. -/
noncomputable def trailAlphaStep (vel : ℕ → ℝ) (a : ℕ → ℝ) : ℕ → ℝ := fun j =>
  if j < PARTICLE_COUNT then min 0.5 (particleSpeed vel j * 4.0)
  else if j < TRAIL_LENGTH * PARTICLE_COUNT then a (j - PARTICLE_COUNT) * 0.65
  else a j

/-- Trail-position part of the throttled trail update
(ParticleGestureSystem.tsx lines 716-737): slot k copies slot k-1, then
slot 0 is rewritten from the live current positions. -/
noncomputable def trailPosStep (cur : ℕ → ℝ) (p : ℕ → ℝ) : ℕ → ℝ := fun j =>
  if j < PARTICLE_COUNT * 3 then cur j
  else if j < TRAIL_LENGTH * PARTICLE_COUNT * 3 then p (j - PARTICLE_COUNT * 3)
  else p j

/-- The initial trail alpha array: all slots are initialized to 0
(ParticleGestureSystem.tsx line 429). -/
noncomputable def initTrailAlpha : ℕ → ℝ := fun _ => 0

/-- The explosion / transition / spring physics block of animate
(ParticleGestureSystem.tsx lines 640-707), applied to the state after the
gesture update, with dt the already-clamped frame delta.  When the
transition is active, progress advances by dt * 0.8; the exploding phase
pushes every coordinate by its burst velocity times dt * 500 and hands the
burst velocities to the velocity array, ending at progress 1.5 by swapping
in the pending target and entering reforming; the reforming phase runs the
spring step with a lerp factor growing from 0.15 to 0.40 and damping 0.85,
ending at progress 0.8 by returning to idle and clearing the burst and
pending-target state.  When no transition is active, the normal spring step
with LERP_SPEED and damping 0.92 runs. -/
noncomputable def physicsStep (dt : ℝ) (s1 : SimState) : SimState :=
  if s1.active then
      let progress := s1.progress + dt * 0.8
      match s1.phase with
      | .exploding =>
        let cur := match s1.burstVelocities with
          | some bv => fun i =>
              if i < PARTICLE_COUNT * 3 then s1.current i + bv i * dt * 500.0
              else s1.current i
          | none => s1.current
        let v := match s1.burstVelocities with
          | some bv => fun i =>
              if i < PARTICLE_COUNT * 3 then bv i else s1.vel i
          | none => s1.vel
        if progress ≥ 1.5 then
          { s1 with current := cur, vel := v, phase := .reforming, progress := 0,
                    target := s1.pendingTarget.getD s1.target }
        else
          { s1 with current := cur, vel := v, progress := progress }
      | .reforming =>
        let t := min (progress / 0.8) 1.0
        let lerpFactor := 0.15 + t * 0.25
        let v := fun i =>
          if i < PARTICLE_COUNT * 3 then
            (s1.vel i +
              (s1.target i * s1.gestureScale + offsetAt s1 (i % 3) - s1.current i)
                * lerpFactor) * 0.85
          else s1.vel i
        let cur := fun i =>
          if i < PARTICLE_COUNT * 3 then s1.current i + v i else s1.current i
        if progress ≥ 0.8 then
          { s1 with current := cur, vel := v, active := false, phase := .idle,
                    progress := progress, burstVelocities := none,
                    pendingTarget := none }
        else
          { s1 with current := cur, vel := v, progress := progress }
      | .idle => { s1 with progress := progress }
  else
    let v := fun i =>
      if i < PARTICLE_COUNT * 3 then
        (s1.vel i +
          (s1.target i * s1.gestureScale + offsetAt s1 (i % 3) - s1.current i)
            * LERP_SPEED) * 0.92
      else s1.vel i
    let cur := fun i =>
      if i < PARTICLE_COUNT * 3 then s1.current i + v i else s1.current i
    { s1 with current := cur, vel := v }

/-- The throttled trail update of animate (ParticleGestureSystem.tsx lines
714-751): the trail frame counter increments every frame, and on every
second frame the trail position and alpha buffers are shifted and rewritten
from the live current positions and velocities. -/
noncomputable def trailTick (s2 : SimState) : SimState :=
  let s3 : SimState := { s2 with trailFrame := s2.trailFrame + 1 }
  if s3.trailFrame % 2 = 0 then
    { s3 with trailPos := trailPosStep s3.current s3.trailPos
              trailAlpha := trailAlphaStep s3.vel s3.trailAlpha }
  else s3

/-- One animation-loop physics step (the body of animate,
ParticleGestureSystem.tsx lines 587-751, restricted to the state it
mutates).  The raw frame delta is clamped to at most 0.05 seconds; then the
gesture scale/offset update runs (lines 621-637), then the physics block
(lines 640-707), and finally the throttled trail update (lines 714-751).
The pulse block, shader uniform writes, auto-rotation and rendering only
touch GPU-side objects and are omitted. -/
noncomputable def frameStep (g : GestureInput) (rawDt : ℝ) (s : SimState) :
    SimState :=
  trailTick (physicsStep (min rawDt 0.05) (gestureUpdate g s))

/-- Spec-side single-coordinate spring update, written from the spec sentence
"scaledTarget = target[i]*gestureScale + gestureOffset[i mod 3];
diff = scaledTarget - current[i]; velocity[i] += diff*springConstant;
velocity[i] *= damping; current[i] += velocity[i]" with springConstant 0.06
and damping 0.92.  Returns (new current, new velocity). -/
noncomputable def specSpringUpdate (target cur v gScale off : ℝ) : ℝ × ℝ :=
  let scaledTarget := target * gScale + off
  let diff := scaledTarget - cur
  let v1 := (v + diff * 0.06) * 0.92
  (cur + v1, v1)

/-- Euclidean distance from a particle's current position to its (unscaled)
target. -/
noncomputable def particleDist (s : SimState) (p : ℕ) : ℝ :=
  Real.sqrt ((s.current (3 * p) - s.target (3 * p)) ^ 2 +
    (s.current (3 * p + 1) - s.target (3 * p + 1)) ^ 2 +
    (s.current (3 * p + 2) - s.target (3 * p + 2)) ^ 2)

/-- Scalar idle spring recurrence for one coordinate with gesture scale 1 and
zero offset toward a fixed target value: the pair (current, velocity) steps to
(current + v1, v1) with v1 = (v + (target - current) * 0.06) * 0.92. -/
noncomputable def springCoord (tgt : ℝ) (p : ℝ × ℝ) : ℝ × ℝ :=
  let v1 := (p.2 + (tgt - p.1) * 0.06) * 0.92
  (p.1 + v1, v1)

/-! ## Shape template generators (particleTemplates.ts) -/

/-- A Math.random() stream: the n-th call returns a value in [0, 1). -/
def validRng (r : ℕ → ℝ) : Prop := ∀ n, 0 ≤ r n ∧ r n < 1

/-- jitter (particleTemplates.ts lines 11-13) with the consumed random value
made explicit: v + (random - 0.5) * amount. -/
noncomputable def jitterT (u v amount : ℝ) : ℝ := v + (u - 0.5) * amount

/-- generateHeart (particleTemplates.ts lines 16-33): parametric heart curve
with volumetric fill and jitter.  Each particle consumes seven random values
in source order (t, s, r, the z random, then one jitter random per
coordinate). -/
noncomputable def generateHeart (count : ℕ) (scale : ℝ) (r : ℕ → ℝ) : List ℝ :=
  (List.range count).flatMap fun i =>
    let t := r (7 * i) * Real.pi * 2
    let s := r (7 * i + 1) * Real.pi
    let rad := 0.3 + r (7 * i + 2) * 0.7
    let x := 16 * Real.sin t ^ 3
    let y := 13 * Real.cos t - 5 * Real.cos (2 * t) - 2 * Real.cos (3 * t) -
      Real.cos (4 * t)
    let z := (r (7 * i + 3) - 0.5) * 8 * Real.sin s
    [jitterT (r (7 * i + 4)) (x * 0.06 * scale * rad) (0.15 * scale),
     jitterT (r (7 * i + 5)) (y * 0.06 * scale * rad) (0.15 * scale),
     jitterT (r (7 * i + 6)) (z * 0.06 * scale * rad) (0.15 * scale)]

/-- generateSaturn (particleTemplates.ts lines 64-92): an oblate planet
sphere for floor(count * 0.45) particles followed by a thin ring annulus at
radius 0.7..1.3 times scale for the remainder.  Planet particles consume
three random values each; ring particles consume three each starting after
the planet block. -/
noncomputable def generateSaturn (count : ℕ) (scale : ℝ) (r : ℕ → ℝ) : List ℝ :=
  let planetCount := count * 45 / 100
  let ringCount := count - planetCount
  ((List.range planetCount).flatMap fun i =>
    let theta := r (3 * i) * Real.pi * 2
    let phi := Real.arccos (2 * r (3 * i + 1) - 1)
    let rad := r (3 * i + 2) ^ (0.33 : ℝ) * scale * 0.5
    [rad * Real.sin phi * Real.cos theta,
     rad * Real.sin phi * Real.sin theta * 0.9,
     rad * Real.cos phi]) ++
  ((List.range ringCount).flatMap fun i =>
    let base := 3 * planetCount + 3 * i
    let theta := r base * Real.pi * 2
    let rad := scale * (0.7 + r (base + 1) * 0.6)
    [rad * Real.cos theta,
     jitterT (r (base + 2)) 0 (0.03 * scale),
     rad * Real.sin theta])

/-- generateDNA (particleTemplates.ts lines 267-303): two phase-offset helix
strands for floor(count * 0.7) particles, then connecting rungs interpolated
between the strands for the remainder.  Helix particles consume three random
values each (one per jitter); connector particles consume two (lerp and the
y jitter) starting after the helix block. -/
noncomputable def generateDNA (count : ℕ) (scale : ℝ) (r : ℕ → ℝ) : List ℝ :=
  let helixCount := count * 7 / 10
  let connectorCount := count - helixCount
  ((List.range helixCount).flatMap fun i =>
    let strand := i % 2
    let t := ((i : ℝ) / (helixCount : ℝ)) * Real.pi * 6
    let y := ((i : ℝ) / (helixCount : ℝ) - 0.5) * scale * 2
    let rad := scale * 0.3
    let off := (strand : ℝ) * Real.pi
    [jitterT (r (3 * i)) (rad * Real.cos (t + off)) (0.05 * scale),
     jitterT (r (3 * i + 1)) y (0.03 * scale),
     jitterT (r (3 * i + 2)) (rad * Real.sin (t + off)) (0.05 * scale)]) ++
  ((List.range connectorCount).flatMap fun i =>
    let base := 3 * helixCount + 2 * i
    let t := ((i : ℝ) / (connectorCount : ℝ)) * Real.pi * 6
    let y := ((i : ℝ) / (connectorCount : ℝ) - 0.5) * scale * 2
    let lerp := r base
    let rad := scale * 0.3
    let x1 := rad * Real.cos t
    let z1 := rad * Real.sin t
    let x2 := rad * Real.cos (t + Real.pi)
    let z2 := rad * Real.sin (t + Real.pi)
    [x1 + (x2 - x1) * lerp,
     jitterT (r (base + 1)) y (0.02 * scale),
     z1 + (z2 - z1) * lerp])

/-- generateCosmos (particleTemplates.ts lines 306-329): two-tier globular
cluster; the first floor(count * 0.2) particles are core particles with
radius rand^0.5 * CORE_RADIUS, the rest halo particles with radius
CORE_RADIUS + rand^1.2 * (HALO_RADIUS - CORE_RADIUS), where
CORE_RADIUS = scale and HALO_RADIUS = 3 * scale.  Three random values per
particle. -/
noncomputable def generateCosmos (count : ℕ) (scale : ℝ) (r : ℕ → ℝ) : List ℝ :=
  let CORE_RADIUS := scale
  let HALO_RADIUS := scale * 3
  let coreCount := count * 2 / 10
  (List.range count).flatMap fun i =>
    let theta := r (3 * i) * Real.pi * 2
    let phi := Real.arccos (2 * r (3 * i + 1) - 1)
    let rad :=
      if i < coreCount then r (3 * i + 2) ^ (0.5 : ℝ) * CORE_RADIUS
      else CORE_RADIUS + r (3 * i + 2) ^ (1.2 : ℝ) * (HALO_RADIUS - CORE_RADIUS)
    [rad * Real.sin phi * Real.cos theta,
     rad * Real.sin phi * Real.sin theta,
     rad * Real.cos phi]

/-- The shape catalog PARTICLE_TEMPLATES (particleTemplates.ts lines
331-336): ids cosmos, heart, saturn, dna paired with their generators. -/
noncomputable def PARTICLE_TEMPLATES : List (String × (ℕ → ℝ → (ℕ → ℝ) → List ℝ)) :=
  [(("cosmos"), generateCosmos),
   (("heart"), generateHeart),
   (("saturn"), generateSaturn),
   (("dna"), generateDNA)]

/-- Documented per-shape bound constant C: coordinates of shape id stay within
C * scale.  The cosmos halo reaches 3 * scale; all other catalog shapes stay
within 2 * scale. -/
noncomputable def shapeBound (id : String) : ℝ := if id = ("cosmos") then 3 else 2

/-! ## Persisted session preferences (loadSession, ParticleGestureSystem.tsx) -/

/-- A parsed JSON value (the result of JSON.parse). -/
inductive JValue where
  | jnull
  | jbool (b : Bool)
  | jnum (q : ℚ)
  | jstr (s : String)
  | jarr (elems : List JValue)
  | jobj (fields : List (String × JValue))

/-- Property lookup on a parsed JSON object (first matching key). -/
def jlookup : List (String × JValue) → String → Option JValue
  | [], _ => none
  | f :: fs, k => if f.1 = k then some f.2 else jlookup fs k

/-- JavaScript property access `value.key`; produces none (undefined) on
non-objects, modelling the optional-chaining / failed-access paths that the
try/catch in loadSession converts to the same null result. -/
def getField : JValue → String → Option JValue
  | .jobj fs, k => jlookup fs k
  | _, _ => none

/-- JavaScript truthiness of a possibly-absent value. -/
def truthy : Option JValue → Bool
  | none => false
  | some .jnull => false
  | some (.jbool b) => b
  | some (.jnum q) => decide (q ≠ 0)
  | some (.jstr s) => decide (s ≠ (""))
  | some (.jarr _) => true
  | some (.jobj _) => true

/-- typeof check for strings, with extraction. -/
def asStr : Option JValue → Option String
  | some (.jstr s) => some s
  | _ => none

/-- Array.isArray check. -/
def isArrOpt : Option JValue → Bool
  | some (.jarr _) => true
  | _ => false

/-- The hex field of the stored selectedColor, as read through optional
chaining in loadSession. -/
def colorHexOf (parsed : JValue) : Option JValue :=
  match getField parsed ("selectedColor") with
  | some c => getField c ("hex")
  | none => none

/-- The rgb field of the stored selectedColor, as read through optional
chaining in loadSession. -/
def colorRgbOf (parsed : JValue) : Option JValue :=
  match getField parsed ("selectedColor") with
  | some c => getField c ("rgb")
  | none => none

/-- The validated session blob (SessionData, ParticleGestureSystem.tsx
lines 18-24); selectedColor is kept as the raw parsed value since only its
hex truthiness and rgb array-ness are validated. -/
structure SessionData where
  selectedTemplate : String
  selectedColor : JValue
  customColor : String
  transitionMode : String
  showPanel : Bool

/-- loadSession (ParticleGestureSystem.tsx lines 26-42).  The input none
models both an absent localStorage entry and a JSON.parse failure (the catch
branch).  Each validation failure returns none: selectedTemplate must be a
string, selectedColor.hex must be truthy and selectedColor.rgb an array,
customColor a string, transitionMode one of morph/explode/vortex, showPanel a
boolean, and the template id must exist in PARTICLE_TEMPLATES. -/
noncomputable def loadSession (blob : Option JValue) : Option SessionData :=
  match blob with
  | none => none
  | some parsed =>
    match asStr (getField parsed ("selectedTemplate")) with
    | none => none
    | some tpl =>
      if !truthy (colorHexOf parsed) || !isArrOpt (colorRgbOf parsed) then none
      else
        match asStr (getField parsed ("customColor")) with
        | none => none
        | some cc =>
          match getField parsed ("transitionMode") with
          | some (.jstr tm) =>
            if [("morph"), ("explode"), ("vortex")].contains tm then
              match getField parsed ("showPanel") with
              | some (.jbool sp) =>
                if (PARTICLE_TEMPLATES.map Prod.fst).contains tpl then
                  some { selectedTemplate := tpl
                         selectedColor := (getField parsed ("selectedColor")).getD .jnull
                         customColor := cc
                         transitionMode := tm
                         showPanel := sp }
                else none
              | _ => none
            else none
          | _ => none

/-- The configuration fields whose initial values fall back to documented
defaults when no valid session loads (the useState initializers,
ParticleGestureSystem.tsx lines 93-110). -/
structure EffectiveConfig where
  selectedTemplate : String
  transitionMode : String
  showPanel : Bool
  customColor : String

/-- The documented default configuration: template cosmos, transition mode
explode, panel shown, custom color #FFD700. -/
def defaultConfig : EffectiveConfig :=
  { selectedTemplate := ("cosmos")
    transitionMode := ("explode")
    showPanel := true
    customColor := ("#FFD700") }

/-- The configuration the component actually starts with: the loaded session
when validation succeeds, the defaults otherwise. -/
noncomputable def effectiveConfig (blob : Option JValue) : EffectiveConfig :=
  match loadSession blob with
  | some sd =>
    { selectedTemplate := sd.selectedTemplate
      transitionMode := sd.transitionMode
      showPanel := sd.showPanel
      customColor := sd.customColor }
  | none => defaultConfig

/-! ## Concrete inputs used by witnesses and counterexamples -/

/-- A hand with every landmark at the origin. -/
noncomputable def zeroHand : Hand := fun _ => ⟨0, 0, 0⟩

/-- A degenerate hand whose palm size is 0 (middle MCP coincides with the
wrist) but whose other four finger tips sit three times as far from the
wrist as their bases, so those fingers read as fully extended. -/
noncomputable def degenerateHand : Hand := fun n =>
  if n = 4 ∨ n = 8 ∨ n = 16 ∨ n = 20 then ⟨3, 0, 0⟩
  else if n = 2 ∨ n = 5 ∨ n = 13 ∨ n = 17 then ⟨1, 0, 0⟩
  else ⟨0, 0, 0⟩

/-- The initial smoothed accumulator of useHandGesture.ts (lines 116-123). -/
noncomputable def smoothedInit : SmoothedG :=
  { distance := 0.5, leftOpenness := 0, rightOpenness := 0, scale := 1,
    centerX := 0.5, centerY := 0.5 }

/-- A single detected hand at the origin with provider label Right. -/
noncomputable def handsOne : List (Hand × String) := [(zeroHand, ("Right"))]

/-- The all-zero real array. -/
noncomputable def zeroArr : ℕ → ℝ := fun _ => 0

/-- The all-one real array. -/
noncomputable def onesArr : ℕ → ℝ := fun _ => 1

/-- The zero random stream (a valid Math.random() stream). -/
noncomputable def zeroRng : ℕ → ℝ := fun _ => 0

/-- An idle simulation state: everything at rest, gesture scale 1, offsets 0. -/
noncomputable def initSimState : SimState where
  phase := .idle
  active := false
  progress := 0
  current := zeroArr
  vel := zeroArr
  target := zeroArr
  burstVelocities := none
  pendingTarget := none
  gestureScale := 1
  offsetX := 0
  offsetY := 0
  offsetZ := 0
  trailPos := zeroArr
  trailAlpha := zeroArr
  trailFrame := 0

/-- The gesture control signal with no hands detected. -/
noncomputable def noHands : GestureInput :=
  { handsDetected := 0, scale := 1, centerX := 0.5, centerY := 0.5,
    averageOpenness := 0 }

/-- Idle state whose particle 0 sits at position (1, 0, 0) with the target
still at its pre-morph value 1 in every coordinate. -/
noncomputable def preMorphState : SimState :=
  { initSimState with current := fun i => if i = 0 then 1 else 0,
                      target := onesArr }

/-- The state right after a morph-mode transition to the all-zero target:
triggerTransition replaces the target immediately and touches nothing else. -/
noncomputable def morphedState : SimState :=
  triggerTransition .morph zeroRng zeroArr preMorphState

/-- The transitionMode field holds a string drawn from the allowed enum. -/
def validModeField (v : Option JValue) : Prop :=
  ∃ tm, v = some (.jstr tm) ∧ [("morph"), ("explode"), ("vortex")].contains tm = true

/-- The showPanel field holds a boolean. -/
def validShowPanel (v : Option JValue) : Prop :=
  ∃ b, v = some (.jbool b)

/-- A malformed preference blob in the sense of the claim: some required
field is missing or has the wrong type, or an enum-valued field holds an
unrecognized value (transitionMode outside morph/explode/vortex, or a shape
id not present in the template catalog). -/
def malformedBlob (parsed : JValue) : Prop :=
  asStr (getField parsed ("selectedTemplate")) = none ∨
  truthy (colorHexOf parsed) = false ∨
  isArrOpt (colorRgbOf parsed) = false ∨
  asStr (getField parsed ("customColor")) = none ∨
  ¬ validModeField (getField parsed ("transitionMode")) ∨
  ¬ validShowPanel (getField parsed ("showPanel")) ∨
  (∀ tpl, asStr (getField parsed ("selectedTemplate")) = some tpl →
    (PARTICLE_TEMPLATES.map Prod.fst).contains tpl = false)

/-- A blob that is well-formed except that transitionMode is the
unrecognized enum value spin. -/
def spinBlob : JValue :=
  .jobj [(("selectedTemplate"), .jstr ("cosmos")),
         (("selectedColor"), .jobj [(("hex"), .jstr ("#FFD700")),
                                    (("rgb"), .jarr [])]),
         (("customColor"), .jstr ("#FFD700")),
         (("transitionMode"), .jstr ("spin")),
         (("showPanel"), .jbool true)]

/-! ## Theorems -/

theorem processResults_nil (s : HandSmoothed) :
    processResults [] s =
      { tension := s.tension * 0.95
        centerX := s.centerX + (0.5 - s.centerX) * 0.05
        centerY := s.centerY + (0.5 - s.centerY) * 0.05 } := by
  simp [processResults]

theorem decaySeq_zero : decaySeq 0 = { tension := 1, centerX := 0.1, centerY := 0.5 } :=
  rfl

theorem decaySeq_succ (n : ℕ) :
    decaySeq (n + 1) = processResults [] (decaySeq n) := by
  unfold decaySeq
  rw [Function.iterate_succ_apply']

theorem decaySeq_inv (n : ℕ) :
    0 < (decaySeq n).tension ∧ 0.1 ≤ (decaySeq n).centerX ∧
      (decaySeq n).centerX < 0.5 := by
  induction n with
  | zero => rw [decaySeq_zero]; norm_num
  | succ k ih =>
    rw [decaySeq_succ, processResults_nil]
    obtain ⟨h1, h2, h3⟩ := ih
    refine ⟨by positivity, by nlinarith, by nlinarith⟩

/-- Claim C5: with zero hands detected, the gesture interpreter does not snap
to defaults: starting from smoothed tension 1 and centerX 0.1, every further
zero-hand processResults invocation strictly decreases the tension (toward 0)
and strictly increases centerX (toward 0.5) while keeping it below 0.5, so
after 100 invocations the tension is strictly closer to 0 and centerX
strictly closer to 0.5 than initially, with no oscillation. -/
theorem C5_zero_hands_decay :
    (∀ n, (decaySeq (n + 1)).tension < (decaySeq n).tension) ∧
    (∀ n, (decaySeq n).centerX < (decaySeq (n + 1)).centerX ∧
      (decaySeq (n + 1)).centerX < 0.5) ∧
    (decaySeq 100).tension < (decaySeq 0).tension ∧
    |(decaySeq 100).centerX - 0.5| < |(decaySeq 0).centerX - 0.5| := by
  have htstep : ∀ n, (decaySeq (n + 1)).tension < (decaySeq n).tension := by
    intro n
    have h := (decaySeq_inv n).1
    rw [decaySeq_succ, processResults_nil]
    nlinarith
  have hcstep : ∀ n, (decaySeq n).centerX < (decaySeq (n + 1)).centerX ∧
      (decaySeq (n + 1)).centerX < 0.5 := by
    intro n
    have h := (decaySeq_inv n).2.2
    constructor
    · rw [decaySeq_succ, processResults_nil]; nlinarith
    · exact (decaySeq_inv (n + 1)).2.2
  have hanti : StrictAnti fun n => (decaySeq n).tension :=
    strictAnti_nat_of_succ_lt htstep
  have hmono : StrictMono fun n => (decaySeq n).centerX :=
    strictMono_nat_of_lt_succ fun n => (hcstep n).1
  refine ⟨htstep, hcstep, hanti (by norm_num), ?_⟩
  have h0 : (decaySeq 0).centerX = 0.1 := by rw [decaySeq_zero]
  have h100lt : (decaySeq 100).centerX < 0.5 := (decaySeq_inv 100).2.2
  have h100gt : (decaySeq 0).centerX < (decaySeq 100).centerX :=
    hmono (by norm_num)
  rw [abs_of_neg (by linarith), abs_of_neg (by rw [h0]; norm_num)]
  linarith

/-- Claim C6: for every gesture-interpreter invocation with at least one
detected hand, the produced tension equals clamp(1 - averageOpenness, 0, 1)
exactly, where averageOpenness is the average openness computed by that same
invocation, and the tension always lies in the unit interval. -/
theorem C6_tension_clamp (hands : List (Hand × String)) (s : SmoothedG)
    (h : 1 ≤ hands.length) :
    (onResults hands s).tension =
      specClamp01 (1 - (onResults hands s).averageOpenness) ∧
    0 ≤ (onResults hands s).tension ∧ (onResults hands s).tension ≤ 1 := by
  refine ⟨?_, ?_, ?_⟩
  · simp only [onResults, specClamp01]
  · simp only [onResults]
    exact le_max_left _ _
  · simp only [onResults]
    exact max_le (by norm_num) (min_le_left _ _)

/-- Witness for C6: a single detected hand at the origin. -/
theorem C6_tension_clamp_witness :
    (onResults handsOne smoothedInit).tension =
      specClamp01 (1 - (onResults handsOne smoothedInit).averageOpenness) ∧
    0 ≤ (onResults handsOne smoothedInit).tension ∧
      (onResults handsOne smoothedInit).tension ≤ 1 :=
  C6_tension_clamp handsOne smoothedInit (by simp [handsOne])

theorem sqrt_nine : Real.sqrt 9 = 3 := by
  rw [show (9 : ℝ) = 3 ^ 2 by norm_num]
  exact Real.sqrt_sq (by norm_num)

/-- Counterexample for C7: the per-hand openness computation
calculateFingerOpenness (useHandGesture.ts) has no palm-size guard; on a hand
whose palm size is 0 (below any epsilon) but whose thumb, index, ring and
pinky tips are extended, it returns 4/5, not 0. -/
theorem C7_no_palm_guard_counterexample :
    palmSize degenerateHand < 0.001 ∧
    calculateFingerOpenness degenerateHand = 4 / 5 ∧
    calculateFingerOpenness degenerateHand ≠ 0 := by
  have hp : palmSize degenerateHand < 0.001 := by
    simp only [palmSize, degenerateHand, dist3]
    norm_num
  refine ⟨hp, ?_, ?_⟩
  · simp only [calculateFingerOpenness, fingerTips, fingerBases, List.zip,
      List.zipWith, List.map, fingerOpennessTB, degenerateHand, dist3]
    norm_num [sqrt_nine]
  · simp only [calculateFingerOpenness, fingerTips, fingerBases, List.zip,
      List.zipWith, List.map, fingerOpennessTB, degenerateHand, dist3]
    norm_num [sqrt_nine]

/-- Claim C7 as amended: HandTracker's per-hand tension computation
calculateTension returns 0 whenever the palm size is below the 0.001 epsilon
(a tension of 0, which is what the guard in the source returns), and in both
per-hand computations every per-finger ratio is guarded by the base distance
being positive, so a base landmark coinciding with the wrist yields ratio 0
and per-finger openness 0 rather than a division by zero. -/
theorem C7_palm_guard_amended :
    (∀ lm : Hand, palmSize lm < 0.001 → calculateTension lm = 0) ∧
    (∀ (lm : Hand) (tip base : ℕ), dist3 (lm base) (lm 0) = 0 →
      fingerOpennessTB lm tip base = 0) := by
  constructor
  · intro lm h
    simp [calculateTension, h]
  · intro lm tip base h
    simp only [fingerOpennessTB, h]
    norm_num

/-- Witness for C7's amended statement: the all-origin hand. -/
theorem C7_palm_guard_amended_witness :
    calculateTension zeroHand = 0 ∧ fingerOpennessTB zeroHand 4 2 = 0 := by
  constructor
  · exact C7_palm_guard_amended.1 zeroHand (by simp [palmSize, zeroHand, dist3]; norm_num)
  · exact C7_palm_guard_amended.2 zeroHand 4 2 (by simp [zeroHand, dist3])

theorem loadSession_valid (parsed : JValue) (sd : SessionData)
    (h : loadSession (some parsed) = some sd) :
    (∃ tpl, asStr (getField parsed ("selectedTemplate")) = some tpl ∧
      (PARTICLE_TEMPLATES.map Prod.fst).contains tpl = true) ∧
    truthy (colorHexOf parsed) = true ∧
    isArrOpt (colorRgbOf parsed) = true ∧
    (∃ cc, asStr (getField parsed ("customColor")) = some cc) ∧
    validModeField (getField parsed ("transitionMode")) ∧
    validShowPanel (getField parsed ("showPanel")) := by
  simp only [loadSession] at h
  cases hT : asStr (getField parsed ("selectedTemplate")) with
  | none => simp [hT] at h
  | some tpl =>
    simp only [hT] at h
    cases hhex : truthy (colorHexOf parsed) with
    | false => simp [hhex] at h
    | true =>
      cases hrgb : isArrOpt (colorRgbOf parsed) with
      | false => simp [hhex, hrgb] at h
      | true =>
        simp only [hhex, hrgb, Bool.not_true, Bool.or_self, Bool.false_eq_true,
          if_false] at h
        cases hC : asStr (getField parsed ("customColor")) with
        | none => simp [hC] at h
        | some cc =>
          simp only [hC] at h
          cases hM : getField parsed ("transitionMode") with
          | none => simp [hM] at h
          | some mv =>
            simp only [hM] at h
            cases mv with
            | jstr tm =>
              simp only at h
              by_cases htm : ([("morph"), ("explode"), ("vortex")].contains tm) = true
              · rw [if_pos htm] at h
                cases hS : getField parsed ("showPanel") with
                | none => simp [hS] at h
                | some sv =>
                  simp only [hS] at h
                  cases sv with
                  | jbool sp =>
                    simp only at h
                    by_cases hcat :
                        ((PARTICLE_TEMPLATES.map Prod.fst).contains tpl) = true
                    · exact ⟨⟨tpl, rfl, hcat⟩, rfl, rfl, ⟨cc, rfl⟩,
                        ⟨tm, rfl, htm⟩, ⟨sp, rfl⟩⟩
                    · rw [if_neg hcat] at h
                      exact absurd h (by simp)
                  | jnull => simp at h
                  | jnum q => simp at h
                  | jstr s => simp at h
                  | jarr a => simp at h
                  | jobj o => simp at h
              · rw [if_neg htm] at h
                exact absurd h (by simp)
            | jnull => simp at h
            | jbool b => simp at h
            | jnum q => simp at h
            | jarr a => simp at h
            | jobj o => simp at h

/-- Claim C9: loading a persisted preference blob that is missing a required
field, has a field of the wrong type, or carries an unrecognized enum value
(such as transitionMode spin or an unknown shape id) makes loadSession reject
the blob, so the component starts from the documented default configuration;
loadSession is a total function (the JSON.parse try/catch is modelled by the
Option input), so no malformed blob throws. -/
theorem C9_malformed_prefs_defaults (parsed : JValue)
    (hbad : malformedBlob parsed) :
    loadSession (some parsed) = none ∧
    effectiveConfig (some parsed) = defaultConfig := by
  cases hls : loadSession (some parsed) with
  | none => exact ⟨rfl, by simp [effectiveConfig, hls]⟩
  | some sd =>
    exfalso
    obtain ⟨⟨tpl, hT, hcat⟩, hhex, hrgb, ⟨cc, hC⟩, hmode, hpanel⟩ :=
      loadSession_valid parsed sd hls
    rcases hbad with hb | hb | hb | hb | hb | hb | hb
    · rw [hT] at hb; exact Option.noConfusion hb
    · rw [hhex] at hb; exact Bool.noConfusion hb
    · rw [hrgb] at hb; exact Bool.noConfusion hb
    · rw [hC] at hb; exact Option.noConfusion hb
    · exact hb hmode
    · exact hb hpanel
    · rw [hb tpl hT] at hcat; exact Bool.noConfusion hcat

/-- Witness for C9: a blob whose transitionMode is the unrecognized value
spin loads as none and leaves the defaults in force. -/
theorem C9_malformed_prefs_defaults_witness :
    loadSession (some spinBlob) = none ∧
    effectiveConfig (some spinBlob) = defaultConfig := by
  refine C9_malformed_prefs_defaults spinBlob ?_
  refine Or.inr (Or.inr (Or.inr (Or.inr (Or.inl ?_))))
  rintro ⟨tm, htm, hmem⟩
  simp only [spinBlob, getField, jlookup] at htm
  rw [if_neg (by decide), if_neg (by decide), if_neg (by decide)] at htm
  obtain ⟨rfl⟩ : tm = ("spin") := by
    injection htm with h1
    injection h1 with h2
    exact h2.symm
  exact absurd hmem (by decide)

theorem particleSpeed_zero (i : ℕ) : particleSpeed zeroArr i = 0 := by
  simp [particleSpeed, zeroArr]

/-- Claim C8: each throttled trail update copies every older slot from the
slot below while multiplying the stored alpha by 0.65, so over N updates in
which the new slot-0 writes contribute nothing (zero velocities), the alpha
stored in the oldest slot (index PARTICLE_COUNT + p with TRAIL_LENGTH = 2)
is bounded by alpha0 * 0.65 ^ N, where alpha0 bounds all initially stored
alphas: geometric decay, never growth. -/
theorem C8_trail_alpha_decay (a : ℕ → ℝ) (b : ℝ) (hb : 0 ≤ b)
    (ha : ∀ j, j < TRAIL_LENGTH * PARTICLE_COUNT → a j ≤ b) :
    ∀ N p : ℕ, p < PARTICLE_COUNT →
      ((fun al => trailAlphaStep zeroArr al)^[N] a) (PARTICLE_COUNT + p) ≤
        b * 0.65 ^ N := by
  have key : ∀ N, ∀ j, j < TRAIL_LENGTH * PARTICLE_COUNT →
      ((fun al => trailAlphaStep zeroArr al)^[N] a) j ≤ b * 0.65 ^ N := by
    intro N
    induction N with
    | zero => intro j hj; simpa using ha j hj
    | succ k ih =>
      intro j hj
      rw [Function.iterate_succ_apply']
      simp only [trailAlphaStep]
      by_cases h0 : j < PARTICLE_COUNT
      · rw [if_pos h0, particleSpeed_zero]
        have : min (0.5 : ℝ) (0 * 4.0) = 0 := by norm_num
        rw [this]
        positivity
      · rw [if_neg h0, if_pos hj]
        have hsub : j - PARTICLE_COUNT < TRAIL_LENGTH * PARTICLE_COUNT := by
          omega
        have := ih (j - PARTICLE_COUNT) hsub
        calc ((fun al => trailAlphaStep zeroArr al)^[k] a) (j - PARTICLE_COUNT) * 0.65
            ≤ b * 0.65 ^ k * 0.65 :=
              mul_le_mul_of_nonneg_right this (by norm_num)
          _ = b * 0.65 ^ (k + 1) := by ring
  intro N p hp
  refine key N (PARTICLE_COUNT + p) ?_
  rw [show TRAIL_LENGTH * PARTICLE_COUNT = PARTICLE_COUNT + PARTICLE_COUNT from
    two_mul PARTICLE_COUNT]
  exact Nat.add_lt_add_left hp PARTICLE_COUNT

/-- Witness for C8: all initial alphas 1, three decayed updates, particle 0. -/
theorem C8_trail_alpha_decay_witness :
    ((fun al => trailAlphaStep zeroArr al)^[3] onesArr) (PARTICLE_COUNT + 0) ≤
      1 * 0.65 ^ 3 :=
  C8_trail_alpha_decay onesArr 1 (by norm_num)
    (fun j _ => by norm_num [onesArr]) 3 0 (by norm_num [PARTICLE_COUNT])

/-- Claim C10: every entry of the trail alpha array always lies in [0, 0.5]:
the array is initialized to all zeros, and one throttled trail update
preserves the bounds for arbitrary velocities, since slot 0 is written as
min(0.5, speed * 4.0) with speed a square root, and every shifted slot is an
existing alpha multiplied by 0.65. -/
theorem C10_trail_alpha_range :
    (∀ j, initTrailAlpha j = 0 ∧ 0 ≤ initTrailAlpha j ∧ initTrailAlpha j ≤ 0.5) ∧
    ∀ (vel a : ℕ → ℝ), (∀ j, 0 ≤ a j ∧ a j ≤ 0.5) →
      ∀ j, 0 ≤ trailAlphaStep vel a j ∧ trailAlphaStep vel a j ≤ 0.5 := by
  constructor
  · intro j; norm_num [initTrailAlpha]
  · intro vel a ha j
    simp only [trailAlphaStep]
    by_cases h0 : j < PARTICLE_COUNT
    · rw [if_pos h0]
      have hs : 0 ≤ particleSpeed vel j := Real.sqrt_nonneg _
      constructor
      · exact le_min (by norm_num) (by positivity)
      · exact min_le_left _ _
    · rw [if_neg h0]
      by_cases h1 : j < TRAIL_LENGTH * PARTICLE_COUNT
      · rw [if_pos h1]
        have := ha (j - PARTICLE_COUNT)
        constructor
        · nlinarith [this.1]
        · nlinarith [this.1, this.2]
      · rw [if_neg h1]
        exact ha j

/-- Witness for C10: the all-zero alpha array stays in range after an update. -/
theorem C10_trail_alpha_range_witness :
    0 ≤ trailAlphaStep zeroArr zeroArr 0 ∧ trailAlphaStep zeroArr zeroArr 0 ≤ 0.5 :=
  C10_trail_alpha_range.2 zeroArr zeroArr (fun j => by norm_num [zeroArr]) 0

theorem gestureUpdate_fields (g : GestureInput) (s : SimState) :
    (gestureUpdate g s).phase = s.phase ∧
    (gestureUpdate g s).active = s.active ∧
    (gestureUpdate g s).progress = s.progress ∧
    (gestureUpdate g s).current = s.current ∧
    (gestureUpdate g s).vel = s.vel ∧
    (gestureUpdate g s).target = s.target ∧
    (gestureUpdate g s).burstVelocities = s.burstVelocities ∧
    (gestureUpdate g s).pendingTarget = s.pendingTarget := by
  unfold gestureUpdate
  split <;> exact ⟨rfl, rfl, rfl, rfl, rfl, rfl, rfl, rfl⟩

theorem trailTick_fields (s : SimState) :
    (trailTick s).phase = s.phase ∧
    (trailTick s).active = s.active ∧
    (trailTick s).progress = s.progress ∧
    (trailTick s).current = s.current ∧
    (trailTick s).vel = s.vel ∧
    (trailTick s).target = s.target ∧
    (trailTick s).burstVelocities = s.burstVelocities ∧
    (trailTick s).pendingTarget = s.pendingTarget ∧
    (trailTick s).gestureScale = s.gestureScale ∧
    (trailTick s).offsetX = s.offsetX ∧
    (trailTick s).offsetY = s.offsetY ∧
    (trailTick s).offsetZ = s.offsetZ := by
  simp only [trailTick]
  split <;>
    exact ⟨rfl, rfl, rfl, rfl, rfl, rfl, rfl, rfl, rfl, rfl, rfl, rfl⟩

theorem physicsStep_exploding_continue (dt : ℝ) (s1 : SimState)
    (ha : s1.active = true) (hp : s1.phase = .exploding)
    (hlt : ¬ s1.progress + dt * 0.8 ≥ 1.5) :
    (physicsStep dt s1).phase = .exploding ∧
    (physicsStep dt s1).active = true ∧
    (physicsStep dt s1).progress = s1.progress + dt * 0.8 ∧
    (physicsStep dt s1).target = s1.target ∧
    (physicsStep dt s1).pendingTarget = s1.pendingTarget := by
  simp only [physicsStep, ha, hp, if_true]
  rw [if_neg hlt]
  exact ⟨rfl, rfl, rfl, rfl, rfl⟩

theorem physicsStep_exploding_end (dt : ℝ) (s1 : SimState)
    (ha : s1.active = true) (hp : s1.phase = .exploding)
    (hge : s1.progress + dt * 0.8 ≥ 1.5) :
    (physicsStep dt s1).phase = .reforming ∧
    (physicsStep dt s1).active = true ∧
    (physicsStep dt s1).progress = 0 ∧
    (physicsStep dt s1).target = s1.pendingTarget.getD s1.target ∧
    (physicsStep dt s1).pendingTarget = s1.pendingTarget := by
  simp only [physicsStep, ha, hp, if_true]
  rw [if_pos hge]
  exact ⟨rfl, rfl, rfl, rfl, rfl⟩

theorem physicsStep_reforming_continue (dt : ℝ) (s1 : SimState)
    (ha : s1.active = true) (hp : s1.phase = .reforming)
    (hlt : ¬ s1.progress + dt * 0.8 ≥ 0.8) :
    (physicsStep dt s1).phase = .reforming ∧
    (physicsStep dt s1).active = true ∧
    (physicsStep dt s1).progress = s1.progress + dt * 0.8 ∧
    (physicsStep dt s1).target = s1.target ∧
    (physicsStep dt s1).pendingTarget = s1.pendingTarget := by
  simp only [physicsStep, ha, hp, if_true]
  rw [if_neg hlt]
  exact ⟨rfl, rfl, rfl, rfl, rfl⟩

theorem physicsStep_reforming_end (dt : ℝ) (s1 : SimState)
    (ha : s1.active = true) (hp : s1.phase = .reforming)
    (hge : s1.progress + dt * 0.8 ≥ 0.8) :
    (physicsStep dt s1).phase = .idle ∧
    (physicsStep dt s1).active = false ∧
    (physicsStep dt s1).target = s1.target ∧
    (physicsStep dt s1).burstVelocities = none ∧
    (physicsStep dt s1).pendingTarget = none := by
  simp only [physicsStep, ha, hp, if_true]
  rw [if_pos hge]
  exact ⟨rfl, rfl, rfl, rfl, rfl⟩

theorem physicsStep_inactive (dt : ℝ) (s1 : SimState) (ha : s1.active = false) :
    (physicsStep dt s1).phase = s1.phase ∧
    (physicsStep dt s1).active = false ∧
    (physicsStep dt s1).progress = s1.progress ∧
    (physicsStep dt s1).target = s1.target ∧
    (physicsStep dt s1).burstVelocities = s1.burstVelocities ∧
    (physicsStep dt s1).pendingTarget = s1.pendingTarget ∧
    (physicsStep dt s1).gestureScale = s1.gestureScale ∧
    (physicsStep dt s1).offsetX = s1.offsetX ∧
    (physicsStep dt s1).offsetY = s1.offsetY ∧
    (physicsStep dt s1).offsetZ = s1.offsetZ ∧
    (∀ i,
      (physicsStep dt s1).vel i =
        if i < PARTICLE_COUNT * 3 then
          (s1.vel i +
            (s1.target i * s1.gestureScale + offsetAt s1 (i % 3) - s1.current i)
              * LERP_SPEED) * 0.92
        else s1.vel i) ∧
    (∀ i,
      (physicsStep dt s1).current i =
        if i < PARTICLE_COUNT * 3 then s1.current i + (physicsStep dt s1).vel i
        else s1.current i) := by
  simp only [physicsStep, ha, Bool.false_eq_true, if_false]
  exact ⟨trivial, trivial, trivial, trivial, trivial, trivial, trivial,
    trivial, trivial, trivial, fun _ => trivial, fun _ => trivial⟩

theorem triggerTransition_explode_fields (rng : ℕ → ℝ) (newTarget : ℕ → ℝ)
    (s : SimState) :
    (triggerTransition .explode rng newTarget s).phase = .exploding ∧
    (triggerTransition .explode rng newTarget s).active = true ∧
    (triggerTransition .explode rng newTarget s).progress = 0 ∧
    (triggerTransition .explode rng newTarget s).pendingTarget = some newTarget ∧
    (triggerTransition .explode rng newTarget s).target = s.target := by
  simp [triggerTransition]

theorem min_dt_sixtieth : min (1 / 60 : ℝ) 0.05 = 1 / 60 := by norm_num

theorem frameStep_exploding_continue (g : GestureInput) (s : SimState)
    (ha : s.active = true) (hp : s.phase = .exploding)
    (hlt : ¬ s.progress + (1 / 60 : ℝ) * 0.8 ≥ 1.5) :
    (frameStep g (1 / 60) s).phase = .exploding ∧
    (frameStep g (1 / 60) s).active = true ∧
    (frameStep g (1 / 60) s).progress = s.progress + (1 / 60 : ℝ) * 0.8 ∧
    (frameStep g (1 / 60) s).target = s.target ∧
    (frameStep g (1 / 60) s).pendingTarget = s.pendingTarget := by
  obtain ⟨gp, ga, gpr, -, -, gt, -, gpe⟩ := gestureUpdate_fields g s
  simp only [frameStep, min_dt_sixtieth]
  obtain ⟨p1, p2, p3, p4, p5⟩ :=
    physicsStep_exploding_continue (1 / 60) (gestureUpdate g s)
      (ga.trans ha) (gp.trans hp) (by rw [gpr]; exact hlt)
  obtain ⟨t1, t2, t3, -, -, t6, -, t8, -, -, -, -⟩ :=
    trailTick_fields (physicsStep (1 / 60) (gestureUpdate g s))
  exact ⟨t1.trans p1, t2.trans p2, t3.trans (p3.trans (by rw [gpr])),
    t6.trans (p4.trans gt), t8.trans (p5.trans gpe)⟩

theorem frameStep_exploding_end (g : GestureInput) (s : SimState)
    (ha : s.active = true) (hp : s.phase = .exploding)
    (hge : s.progress + (1 / 60 : ℝ) * 0.8 ≥ 1.5) :
    (frameStep g (1 / 60) s).phase = .reforming ∧
    (frameStep g (1 / 60) s).active = true ∧
    (frameStep g (1 / 60) s).progress = 0 ∧
    (frameStep g (1 / 60) s).target = s.pendingTarget.getD s.target ∧
    (frameStep g (1 / 60) s).pendingTarget = s.pendingTarget := by
  obtain ⟨gp, ga, gpr, -, -, gt, -, gpe⟩ := gestureUpdate_fields g s
  simp only [frameStep, min_dt_sixtieth]
  obtain ⟨p1, p2, p3, p4, p5⟩ :=
    physicsStep_exploding_end (1 / 60) (gestureUpdate g s)
      (ga.trans ha) (gp.trans hp) (by rw [gpr]; exact hge)
  obtain ⟨t1, t2, t3, -, -, t6, -, t8, -, -, -, -⟩ :=
    trailTick_fields (physicsStep (1 / 60) (gestureUpdate g s))
  refine ⟨t1.trans p1, t2.trans p2, t3.trans p3, ?_, t8.trans (p5.trans gpe)⟩
  rw [t6, p4, gpe, gt]

theorem frameStep_reforming_continue (g : GestureInput) (s : SimState)
    (ha : s.active = true) (hp : s.phase = .reforming)
    (hlt : ¬ s.progress + (1 / 60 : ℝ) * 0.8 ≥ 0.8) :
    (frameStep g (1 / 60) s).phase = .reforming ∧
    (frameStep g (1 / 60) s).active = true ∧
    (frameStep g (1 / 60) s).progress = s.progress + (1 / 60 : ℝ) * 0.8 ∧
    (frameStep g (1 / 60) s).target = s.target := by
  obtain ⟨gp, ga, gpr, -, -, gt, -, -⟩ := gestureUpdate_fields g s
  simp only [frameStep, min_dt_sixtieth]
  obtain ⟨p1, p2, p3, p4, -⟩ :=
    physicsStep_reforming_continue (1 / 60) (gestureUpdate g s)
      (ga.trans ha) (gp.trans hp) (by rw [gpr]; exact hlt)
  obtain ⟨t1, t2, t3, -, -, t6, -, -, -, -, -, -⟩ :=
    trailTick_fields (physicsStep (1 / 60) (gestureUpdate g s))
  exact ⟨t1.trans p1, t2.trans p2, t3.trans (p3.trans (by rw [gpr])),
    t6.trans (p4.trans gt)⟩

theorem frameStep_reforming_end (g : GestureInput) (s : SimState)
    (ha : s.active = true) (hp : s.phase = .reforming)
    (hge : s.progress + (1 / 60 : ℝ) * 0.8 ≥ 0.8) :
    (frameStep g (1 / 60) s).phase = .idle ∧
    (frameStep g (1 / 60) s).active = false := by
  obtain ⟨gp, ga, gpr, -, -, -, -, -⟩ := gestureUpdate_fields g s
  simp only [frameStep, min_dt_sixtieth]
  obtain ⟨p1, p2, -, -, -⟩ :=
    physicsStep_reforming_end (1 / 60) (gestureUpdate g s)
      (ga.trans ha) (gp.trans hp) (by rw [gpr]; exact hge)
  obtain ⟨t1, t2, -, -, -, -, -, -, -, -, -, -⟩ :=
    trailTick_fields (physicsStep (1 / 60) (gestureUpdate g s))
  exact ⟨t1.trans p1, t2.trans p2⟩

theorem explode_traj (g : GestureInput) (rng : ℕ → ℝ) (newTarget : ℕ → ℝ)
    (s : SimState) :
    ∀ n, n ≤ 112 →
      ((frameStep g (1 / 60))^[n] (triggerTransition .explode rng newTarget s)).phase
          = .exploding ∧
      ((frameStep g (1 / 60))^[n] (triggerTransition .explode rng newTarget s)).active
          = true ∧
      ((frameStep g (1 / 60))^[n] (triggerTransition .explode rng newTarget s)).progress
          = (n : ℝ) / 75 ∧
      ((frameStep g (1 / 60))^[n] (triggerTransition .explode rng newTarget s)).pendingTarget
          = some newTarget := by
  intro n
  induction n with
  | zero =>
    intro _
    obtain ⟨h1, h2, h3, h4, -⟩ := triggerTransition_explode_fields rng newTarget s
    simpa using ⟨h1, h2, h3, h4⟩
  | succ k ih =>
    intro hk
    obtain ⟨i1, i2, i3, i4⟩ := ih (by omega)
    have hk' : (k : ℝ) ≤ 111 := by exact_mod_cast (by omega : k ≤ 111)
    have hlt : ¬ ((frameStep g (1 / 60))^[k]
        (triggerTransition .explode rng newTarget s)).progress +
        (1 / 60 : ℝ) * 0.8 ≥ 1.5 := by
      rw [i3]; push_neg; nlinarith
    rw [Function.iterate_succ_apply']
    obtain ⟨f1, f2, f3, -, f5⟩ :=
      frameStep_exploding_continue g _ i2 i1 hlt
    refine ⟨f1, f2, ?_, f5.trans i4⟩
    rw [f3, i3]
    push_cast
    ring

theorem explode_swap (g : GestureInput) (rng : ℕ → ℝ) (newTarget : ℕ → ℝ)
    (s : SimState) :
    ((frameStep g (1 / 60))^[113] (triggerTransition .explode rng newTarget s)).phase
        = .reforming ∧
    ((frameStep g (1 / 60))^[113] (triggerTransition .explode rng newTarget s)).active
        = true ∧
    ((frameStep g (1 / 60))^[113] (triggerTransition .explode rng newTarget s)).progress
        = 0 ∧
    ((frameStep g (1 / 60))^[113] (triggerTransition .explode rng newTarget s)).target
        = newTarget := by
  obtain ⟨i1, i2, i3, i4⟩ := explode_traj g rng newTarget s 112 le_rfl
  have hge : ((frameStep g (1 / 60))^[112]
      (triggerTransition .explode rng newTarget s)).progress +
      (1 / 60 : ℝ) * 0.8 ≥ 1.5 := by
    rw [i3]; norm_num
  rw [show (113 : ℕ) = 112 + 1 by norm_num, Function.iterate_succ_apply']
  obtain ⟨f1, f2, f3, f4, -⟩ := frameStep_exploding_end g _ i2 i1 hge
  refine ⟨f1, f2, f3, ?_⟩
  rw [f4, i4]
  rfl

theorem reform_traj (g : GestureInput) (rng : ℕ → ℝ) (newTarget : ℕ → ℝ)
    (s : SimState) :
    ∀ m, m ≤ 59 →
      ((frameStep g (1 / 60))^[113 + m] (triggerTransition .explode rng newTarget s)).phase
          = .reforming ∧
      ((frameStep g (1 / 60))^[113 + m] (triggerTransition .explode rng newTarget s)).active
          = true ∧
      ((frameStep g (1 / 60))^[113 + m] (triggerTransition .explode rng newTarget s)).progress
          = (m : ℝ) / 75 ∧
      ((frameStep g (1 / 60))^[113 + m] (triggerTransition .explode rng newTarget s)).target
          = newTarget := by
  intro m
  induction m with
  | zero =>
    intro _
    obtain ⟨h1, h2, h3, h4⟩ := explode_swap g rng newTarget s
    rw [Nat.add_zero]
    exact ⟨h1, h2, by rw [h3]; norm_num, h4⟩
  | succ k ih =>
    intro hk
    obtain ⟨i1, i2, i3, i4⟩ := ih (by omega)
    have hk' : (k : ℝ) ≤ 58 := by exact_mod_cast (by omega : k ≤ 58)
    have hlt : ¬ ((frameStep g (1 / 60))^[113 + k]
        (triggerTransition .explode rng newTarget s)).progress +
        (1 / 60 : ℝ) * 0.8 ≥ 0.8 := by
      rw [i3]; push_neg; nlinarith
    rw [show 113 + (k + 1) = (113 + k) + 1 from rfl, Function.iterate_succ_apply']
    obtain ⟨f1, f2, f3, f4⟩ := frameStep_reforming_continue g _ i2 i1 hlt
    refine ⟨f1, f2, ?_, f4.trans i4⟩
    rw [f3, i3]
    push_cast
    ring

/-- Claim C1: from an idle state, triggering a template transition with mode
explode enters the exploding phase immediately; stepping the simulation with
the fixed dt-clamped frame delta 1/60 s keeps it exploding through frame 112
(progress reaches 1.5 on frame 113, i.e. after 113 * (1/75) = 1.5067 of
phase progress), at which point the state becomes reforming and the pending
target array is swapped in as the new target; 60 further frames later
(progress 60/75 = 0.8) the reforming phase ends and the state machine
returns to idle with the transition no longer active. -/
theorem C1_explode_state_machine (s : SimState) (g : GestureInput)
    (rng : ℕ → ℝ) (newTarget : ℕ → ℝ)
    (hidle : s.phase = .idle) (hact : s.active = false) :
    (triggerTransition .explode rng newTarget s).phase = .exploding ∧
    (∀ n, n ≤ 112 →
      ((frameStep g (1 / 60))^[n] (triggerTransition .explode rng newTarget s)).phase
        = .exploding) ∧
    ((frameStep g (1 / 60))^[113] (triggerTransition .explode rng newTarget s)).phase
        = .reforming ∧
    ((frameStep g (1 / 60))^[113] (triggerTransition .explode rng newTarget s)).target
        = newTarget ∧
    (∀ m, m ≤ 59 →
      ((frameStep g (1 / 60))^[113 + m] (triggerTransition .explode rng newTarget s)).phase
        = .reforming) ∧
    ((frameStep g (1 / 60))^[173] (triggerTransition .explode rng newTarget s)).phase
        = .idle ∧
    ((frameStep g (1 / 60))^[173] (triggerTransition .explode rng newTarget s)).active
        = false := by
  obtain ⟨t1, -, -, -, -⟩ := triggerTransition_explode_fields rng newTarget s
  obtain ⟨e1, e2, e3, e4⟩ := explode_swap g rng newTarget s
  obtain ⟨r1, r2, r3, r4⟩ := reform_traj g rng newTarget s 59 le_rfl
  have hge : ((frameStep g (1 / 60))^[113 + 59]
      (triggerTransition .explode rng newTarget s)).progress +
      (1 / 60 : ℝ) * 0.8 ≥ 0.8 := by
    rw [r3]; norm_num
  have hfin := frameStep_reforming_end g _ r2 r1 hge
  refine ⟨t1, fun n hn => (explode_traj g rng newTarget s n hn).1, e1, e4,
    fun m hm => (reform_traj g rng newTarget s m hm).1, ?_, ?_⟩
  · rw [show (173 : ℕ) = (113 + 59) + 1 by norm_num,
      Function.iterate_succ_apply']
    exact hfin.1
  · rw [show (173 : ℕ) = (113 + 59) + 1 by norm_num,
      Function.iterate_succ_apply']
    exact hfin.2

/-- Witness for C1: the concrete idle rest state with no hands and the
all-zero new target. -/
theorem C1_explode_state_machine_witness :
    (triggerTransition .explode zeroRng zeroArr initSimState).phase = .exploding ∧
    (∀ n, n ≤ 112 →
      ((frameStep noHands (1 / 60))^[n] (triggerTransition .explode zeroRng zeroArr initSimState)).phase
        = .exploding) ∧
    ((frameStep noHands (1 / 60))^[113] (triggerTransition .explode zeroRng zeroArr initSimState)).phase
        = .reforming ∧
    ((frameStep noHands (1 / 60))^[113] (triggerTransition .explode zeroRng zeroArr initSimState)).target
        = zeroArr ∧
    (∀ m, m ≤ 59 →
      ((frameStep noHands (1 / 60))^[113 + m] (triggerTransition .explode zeroRng zeroArr initSimState)).phase
        = .reforming) ∧
    ((frameStep noHands (1 / 60))^[173] (triggerTransition .explode zeroRng zeroArr initSimState)).phase
        = .idle ∧
    ((frameStep noHands (1 / 60))^[173] (triggerTransition .explode zeroRng zeroArr initSimState)).active
        = false :=
  C1_explode_state_machine initSimState noHands zeroRng zeroArr rfl rfl

/-- Claim C2: with no explosion active, one animation-frame step updates
every coordinate i below the pool bound by exactly the reference spring rule
with spring constant 0.06 (LERP_SPEED) and damping 0.92, against the target
scaled by the gesture scale and shifted by the gesture offset component
i mod 3 in effect during that frame (i.e. after the frame's gesture
update). -/
theorem C2_idle_spring_formula (g : GestureInput) (rawDt : ℝ) (s : SimState)
    (ha : s.active = false) (i : ℕ) (hi : i < PARTICLE_COUNT * 3) :
    ((frameStep g rawDt s).current i, (frameStep g rawDt s).vel i) =
      specSpringUpdate (s.target i) (s.current i) (s.vel i)
        ((gestureUpdate g s).gestureScale)
        (offsetAt (gestureUpdate g s) (i % 3)) := by
  obtain ⟨-, ga, -, gcur, gvel, gtgt, -, -⟩ := gestureUpdate_fields g s
  obtain ⟨-, -, -, -, -, -, -, -, -, -, hv, hc⟩ :=
    physicsStep_inactive (min rawDt 0.05) (gestureUpdate g s) (ga.trans ha)
  obtain ⟨-, -, -, tcur, tvel, -, -, -, -, -, -, -⟩ :=
    trailTick_fields (physicsStep (min rawDt 0.05) (gestureUpdate g s))
  have hcur : (frameStep g rawDt s).current i =
      (physicsStep (min rawDt 0.05) (gestureUpdate g s)).current i := by
    simp only [frameStep]; rw [tcur]
  have hvel : (frameStep g rawDt s).vel i =
      (physicsStep (min rawDt 0.05) (gestureUpdate g s)).vel i := by
    simp only [frameStep]; rw [tvel]
  rw [Prod.mk.injEq]
  constructor
  · rw [hcur, hc i, if_pos hi, hv i, if_pos hi, gcur, gvel, gtgt]
    simp only [specSpringUpdate, LERP_SPEED]
  · rw [hvel, hv i, if_pos hi, gcur, gvel, gtgt]
    simp only [specSpringUpdate, LERP_SPEED]

/-- Witness for C2: the rest state, coordinate 0, frame delta 1/60. -/
theorem C2_idle_spring_formula_witness :
    ((frameStep noHands (1 / 60) initSimState).current 0,
      (frameStep noHands (1 / 60) initSimState).vel 0) =
      specSpringUpdate (initSimState.target 0) (initSimState.current 0)
        (initSimState.vel 0) ((gestureUpdate noHands initSimState).gestureScale)
        (offsetAt (gestureUpdate noHands initSimState) (0 % 3)) :=
  C2_idle_spring_formula noHands (1 / 60) initSimState rfl 0
    (by norm_num [PARTICLE_COUNT])

theorem triggerTransition_morph_fields (rng : ℕ → ℝ) (newTarget : ℕ → ℝ)
    (s : SimState) :
    (triggerTransition .morph rng newTarget s).phase = s.phase ∧
    (triggerTransition .morph rng newTarget s).active = s.active ∧
    (triggerTransition .morph rng newTarget s).target = newTarget ∧
    (triggerTransition .morph rng newTarget s).current = s.current ∧
    (triggerTransition .morph rng newTarget s).vel = s.vel ∧
    (triggerTransition .morph rng newTarget s).gestureScale = s.gestureScale ∧
    (triggerTransition .morph rng newTarget s).offsetX = s.offsetX ∧
    (triggerTransition .morph rng newTarget s).offsetY = s.offsetY ∧
    (triggerTransition .morph rng newTarget s).offsetZ = s.offsetZ := by
  exact ⟨rfl, rfl, rfl, rfl, rfl, rfl, rfl, rfl, rfl⟩

theorem frameStep_inactive_ctrl (g : GestureInput) (rawDt : ℝ) (s : SimState)
    (ha : s.active = false) :
    (frameStep g rawDt s).phase = s.phase ∧
    (frameStep g rawDt s).active = false ∧
    (frameStep g rawDt s).target = s.target := by
  obtain ⟨gp, ga, -, -, -, gt, -, -⟩ := gestureUpdate_fields g s
  obtain ⟨p1, p2, -, p4, -, -, -, -, -, -, -, -⟩ :=
    physicsStep_inactive (min rawDt 0.05) (gestureUpdate g s) (ga.trans ha)
  obtain ⟨t1, t2, -, -, -, t6, -, -, -, -, -, -⟩ :=
    trailTick_fields (physicsStep (min rawDt 0.05) (gestureUpdate g s))
  exact ⟨(by simp only [frameStep]; rw [t1, p1, gp]),
    (by simp only [frameStep]; rw [t2, p2]),
    (by simp only [frameStep]; rw [t6, p4, gt])⟩

theorem offsetAt_zero (s : SimState) (hx : s.offsetX = 0) (hy : s.offsetY = 0)
    (hz : s.offsetZ = 0) (k : ℕ) : offsetAt s k = 0 := by
  unfold offsetAt
  split_ifs <;> assumption

theorem gestureUpdate_noHands_fields (s : SimState) :
    (gestureUpdate noHands s).gestureScale =
      s.gestureScale + (1.0 - s.gestureScale) * 0.04 ∧
    (gestureUpdate noHands s).offsetX = s.offsetX * 0.96 ∧
    (gestureUpdate noHands s).offsetY = s.offsetY * 0.96 ∧
    (gestureUpdate noHands s).offsetZ = s.offsetZ * 0.96 := by
  simp [gestureUpdate, noHands]

theorem morphedState_fields :
    morphedState.active = false ∧ morphedState.gestureScale = 1 ∧
    morphedState.offsetX = 0 ∧ morphedState.offsetY = 0 ∧
    morphedState.offsetZ = 0 ∧ morphedState.target = zeroArr ∧
    morphedState.current 0 = 1 ∧ morphedState.current 1 = 0 ∧
    morphedState.current 2 = 0 ∧ morphedState.vel 0 = 0 ∧
    morphedState.vel 1 = 0 ∧ morphedState.vel 2 = 0 := by
  refine ⟨rfl, rfl, rfl, rfl, rfl, rfl, ?_, ?_, ?_, rfl, rfl, rfl⟩ <;>
    simp [morphedState, triggerTransition, preMorphState, initSimState]

theorem morphIter (n : ℕ) :
    ((frameStep noHands (1 / 60))^[n] morphedState).active = false ∧
    ((frameStep noHands (1 / 60))^[n] morphedState).gestureScale = 1 ∧
    ((frameStep noHands (1 / 60))^[n] morphedState).offsetX = 0 ∧
    ((frameStep noHands (1 / 60))^[n] morphedState).offsetY = 0 ∧
    ((frameStep noHands (1 / 60))^[n] morphedState).offsetZ = 0 ∧
    ((frameStep noHands (1 / 60))^[n] morphedState).target = zeroArr ∧
    ∀ i, i < PARTICLE_COUNT * 3 →
      (((frameStep noHands (1 / 60))^[n] morphedState).current i,
        ((frameStep noHands (1 / 60))^[n] morphedState).vel i) =
        (springCoord 0)^[n] (morphedState.current i, morphedState.vel i) := by
  induction n with
  | zero =>
    obtain ⟨m1, m2, m3, m4, m5, m6, -, -, -, -, -, -⟩ := morphedState_fields
    exact ⟨m1, m2, m3, m4, m5, m6, fun i _ => rfl⟩
  | succ k ih =>
    obtain ⟨i1, i2, i3, i4, i5, i6, i7⟩ := ih
    set sn := (frameStep noHands (1 / 60))^[k] morphedState with hsn
    obtain ⟨ggs, gx, gy, gz⟩ := gestureUpdate_noHands_fields sn
    obtain ⟨gp, ga, -, gcur, gvel, gtgt, -, -⟩ := gestureUpdate_fields noHands sn
    have hga : (gestureUpdate noHands sn).active = false := ga.trans i1
    have hgs1 : (gestureUpdate noHands sn).gestureScale = 1 := by
      rw [ggs, i2]; norm_num
    have hox : (gestureUpdate noHands sn).offsetX = 0 := by rw [gx, i3]; ring
    have hoy : (gestureUpdate noHands sn).offsetY = 0 := by rw [gy, i4]; ring
    have hoz : (gestureUpdate noHands sn).offsetZ = 0 := by rw [gz, i5]; ring
    obtain ⟨p1, p2, -, p4, -, -, pgs, pox, poy, poz, pv, pc⟩ :=
      physicsStep_inactive (min (1 / 60) 0.05) (gestureUpdate noHands sn) hga
    obtain ⟨t1, t2, -, tcur, tvel, t6, -, -, tgs, tox, toy, toz⟩ :=
      trailTick_fields
        (physicsStep (min (1 / 60) 0.05) (gestureUpdate noHands sn))
    rw [Function.iterate_succ_apply']
    have hframe : frameStep noHands (1 / 60) sn =
        trailTick (physicsStep (min (1 / 60) 0.05) (gestureUpdate noHands sn)) := rfl
    rw [hframe]
    refine ⟨t2.trans p2, (tgs.trans (pgs.trans hgs1)),
      (tox.trans (pox.trans hox)), (toy.trans (poy.trans hoy)),
      (toz.trans (poz.trans hoz)), (t6.trans (p4.trans (gtgt.trans i6))), ?_⟩
    intro i hi
    obtain ⟨hci, hvi⟩ := Prod.mk.injEq .. ▸ (i7 i hi)
    have hvnew : (trailTick (physicsStep (min (1 / 60) 0.05)
        (gestureUpdate noHands sn))).vel i =
        ((springCoord 0)^[k + 1] (morphedState.current i, morphedState.vel i)).2 := by
      rw [tvel, pv i, if_pos hi, gcur, gvel, gtgt,
        offsetAt_zero _ hox hoy hoz, hgs1, i6,
        Function.iterate_succ_apply']
      simp only [springCoord, zeroArr, LERP_SPEED]
      rw [← hci, ← hvi]
      ring
    have hcnew : (trailTick (physicsStep (min (1 / 60) 0.05)
        (gestureUpdate noHands sn))).current i =
        ((springCoord 0)^[k + 1] (morphedState.current i, morphedState.vel i)).1 := by
      rw [tcur, pc i, if_pos hi, gcur, ← tvel, hvnew,
        Function.iterate_succ_apply']
      simp only [springCoord]
      rw [← hci, ← hvi]
    rw [Prod.ext_iff]
    exact ⟨hcnew, hvnew⟩

theorem springCoord_fixed_zero (n : ℕ) :
    (springCoord 0)^[n] ((0 : ℝ), (0 : ℝ)) = (0, 0) := by
  apply Function.iterate_fixed
  simp only [springCoord]
  norm_num

theorem springIter_seven :
    (springCoord 0)^[7] ((1 : ℝ), 0) =
      (-0.0237343498100315804011593728, -0.1825382419213624381148233728) := by
  have g1 : (springCoord 0)^[1] ((1 : ℝ), 0) = (0.9448, -0.0552) := by
    rw [Function.iterate_one]
    simp only [springCoord]
    norm_num [Prod.mk.injEq]
  have g2 : (springCoord 0)^[2] ((1 : ℝ), 0) = (0.84186304, -0.10293696) := by
    rw [show (2 : ℕ) = 1 + 1 by norm_num, Function.iterate_succ_apply', g1]
    simp only [springCoord]
    norm_num [Prod.mk.injEq]
  have g3 : (springCoord 0)^[3] ((1 : ℝ), 0) =
      (0.700690196992, -0.141172843008) := by
    rw [show (3 : ℕ) = 2 + 1 by norm_num, Function.iterate_succ_apply', g2]
    simp only [springCoord]
    norm_num [Prod.mk.injEq]
  have g4 : (springCoord 0)^[4] ((1 : ℝ), 0) =
      (0.5321330825506816, -0.1685571144413184) := by
    rw [show (4 : ℕ) = 3 + 1 by norm_num, Function.iterate_succ_apply', g3]
    simp only [springCoord]
    norm_num [Prod.mk.injEq]
  have g5 : (springCoord 0)^[5] ((1 : ℝ), 0) =
      (0.34768679110787104768, -0.18444629144281055232) := by
    rw [show (5 : ℕ) = 4 + 1 by norm_num, Function.iterate_succ_apply', g4]
    simp only [springCoord]
    norm_num [Prod.mk.injEq]
  have g6 : (springCoord 0)^[6] ((1 : ℝ), 0) =
      (0.158803892111330857713664, -0.188882898996540189966336) := by
    rw [show (6 : ℕ) = 5 + 1 by norm_num, Function.iterate_succ_apply', g5]
    simp only [springCoord]
    norm_num [Prod.mk.injEq]
  rw [show (7 : ℕ) = 6 + 1 by norm_num, Function.iterate_succ_apply', g6]
  simp only [springCoord]
  norm_num [Prod.mk.injEq]

theorem springIter_eight :
    (springCoord 0)^[8] ((1 : ℝ), 0) =
      (-0.19035939626817128022865287839744,
        -0.16662504645813969982749350559744) := by
  rw [show (8 : ℕ) = 7 + 1 by norm_num, Function.iterate_succ_apply',
    springIter_seven]
  simp only [springCoord]
  norm_num [Prod.mk.injEq]

theorem morph_coord_pairs (n : ℕ) :
    (((frameStep noHands (1 / 60))^[n] morphedState).current 0,
      ((frameStep noHands (1 / 60))^[n] morphedState).vel 0) =
      (springCoord 0)^[n] (1, 0) ∧
    ((frameStep noHands (1 / 60))^[n] morphedState).current 1 = 0 ∧
    ((frameStep noHands (1 / 60))^[n] morphedState).current 2 = 0 ∧
    ((frameStep noHands (1 / 60))^[n] morphedState).target = zeroArr := by
  obtain ⟨-, -, -, -, -, i6, i7⟩ := morphIter n
  obtain ⟨-, -, -, -, -, -, m7, m8, m9, m10, m11, m12⟩ := morphedState_fields
  have hb : (0 : ℕ) < PARTICLE_COUNT * 3 := by norm_num [PARTICLE_COUNT]
  have hb1 : (1 : ℕ) < PARTICLE_COUNT * 3 := by norm_num [PARTICLE_COUNT]
  have hb2 : (2 : ℕ) < PARTICLE_COUNT * 3 := by norm_num [PARTICLE_COUNT]
  refine ⟨?_, ?_, ?_, i6⟩
  · rw [i7 0 hb, m7, m10]
  · have := i7 1 hb1
    rw [m8, m11, springCoord_fixed_zero] at this
    exact (Prod.ext_iff.mp this).1
  · have := i7 2 hb2
    rw [m9, m12, springCoord_fixed_zero] at this
    exact (Prod.ext_iff.mp this).1

/-- Counterexample for C3: with the actual constants 0.06 and 0.92 the idle
spring is underdamped, so convergence is not monotone: after a morph
transition of a particle at distance 1 from its target, the seventh idle
spring step leaves it at distance about 0.0237 but the eighth carries it to
about 0.1904 on the far side - the Euclidean distance to the target strictly
increases from step 7 to step 8. -/
theorem C3_monotone_counterexample :
    particleDist ((frameStep noHands (1 / 60))^[7] morphedState) 0 <
      particleDist ((frameStep noHands (1 / 60))^[8] morphedState) 0 := by
  obtain ⟨p7, q7, r7, t7⟩ := morph_coord_pairs 7
  obtain ⟨p8, q8, r8, t8⟩ := morph_coord_pairs 8
  rw [springIter_seven] at p7
  rw [springIter_eight] at p8
  have c7 := (Prod.ext_iff.mp p7).1
  have c8 := (Prod.ext_iff.mp p8).1
  simp only at c7 c8
  unfold particleDist
  rw [t7, t8]
  norm_num only
  rw [c7, c8, q7, q8, r7, r8]
  apply Real.sqrt_lt_sqrt
  · positivity
  · norm_num [zeroArr]

/-- Claim C3 as amended: a morph-mode transition never enters the exploding
phase - it replaces the target immediately, leaves the phase and active flag
untouched, and with no transition active every further frame keeps the phase
unchanged and the transition inactive.  For a stationary target, zero
gesture offset and gesture scale 1, a single idle spring step from zero
velocity multiplies a particle's Euclidean distance to its target by exactly
1 - 0.06 * 0.92 = 0.9448 (a strict decrease whenever the distance is
nonzero); monotone decrease does not extend across steps with nonzero
velocity, because the underdamped spring overshoots the target. -/
theorem C3_morph_amended :
    (∀ (rng : ℕ → ℝ) (newTarget : ℕ → ℝ) (s : SimState),
      (triggerTransition .morph rng newTarget s).phase = s.phase ∧
      (triggerTransition .morph rng newTarget s).active = s.active ∧
      (triggerTransition .morph rng newTarget s).target = newTarget) ∧
    (∀ (g : GestureInput) (rawDt : ℝ) (s : SimState), s.active = false →
      ∀ n, ((frameStep g rawDt)^[n] s).phase = s.phase ∧
        ((frameStep g rawDt)^[n] s).active = false) ∧
    (∀ (g : GestureInput) (rawDt : ℝ) (s : SimState) (p : ℕ),
      s.active = false → p < PARTICLE_COUNT →
      s.vel (3 * p) = 0 → s.vel (3 * p + 1) = 0 → s.vel (3 * p + 2) = 0 →
      (gestureUpdate g s).gestureScale = 1 →
      (gestureUpdate g s).offsetX = 0 → (gestureUpdate g s).offsetY = 0 →
      (gestureUpdate g s).offsetZ = 0 →
      particleDist (frameStep g rawDt s) p =
        (1 - 0.06 * 0.92) * particleDist s p) := by
  refine ⟨fun rng newTarget s => ⟨rfl, rfl, rfl⟩, ?_, ?_⟩
  · intro g rawDt s ha n
    induction n with
    | zero => exact ⟨rfl, ha⟩
    | succ k ih =>
      rw [Function.iterate_succ_apply']
      obtain ⟨f1, f2, -⟩ :=
        frameStep_inactive_ctrl g rawDt ((frameStep g rawDt)^[k] s) ih.2
      exact ⟨f1.trans ih.1, f2⟩
  · intro g rawDt s p ha hp hv0 hv1 hv2 hgs hox hoy hoz
    obtain ⟨-, ga, -, gcur, gvel, gtgt, -, -⟩ := gestureUpdate_fields g s
    obtain ⟨-, -, -, -, -, -, -, -, -, -, pv, pc⟩ :=
      physicsStep_inactive (min rawDt 0.05) (gestureUpdate g s) (ga.trans ha)
    obtain ⟨-, -, -, tcur, tvel, -, -, -, -, -, -, -⟩ :=
      trailTick_fields (physicsStep (min rawDt 0.05) (gestureUpdate g s))
    obtain ⟨-, -, htgt⟩ := frameStep_inactive_ctrl g rawDt s ha
    have hb0 : 3 * p < PARTICLE_COUNT * 3 := by omega
    have hb1 : 3 * p + 1 < PARTICLE_COUNT * 3 := by omega
    have hb2 : 3 * p + 2 < PARTICLE_COUNT * 3 := by omega
    have hcoord : ∀ j, j < PARTICLE_COUNT * 3 → s.vel j = 0 →
        (frameStep g rawDt s).current j - s.target j =
          (1 - 0.06 * 0.92) * (s.current j - s.target j) := by
      intro j hj hvj
      have hfc : (frameStep g rawDt s).current j =
          (physicsStep (min rawDt 0.05) (gestureUpdate g s)).current j := by
        simp only [frameStep]; rw [tcur]
      rw [hfc, pc j, if_pos hj, pv j, if_pos hj, gcur, gvel, gtgt,
        offsetAt_zero _ hox hoy hoz, hgs, hvj]
      simp only [LERP_SPEED]
      ring
    unfold particleDist
    rw [htgt, hcoord (3 * p) hb0 hv0, hcoord (3 * p + 1) hb1 hv1,
      hcoord (3 * p + 2) hb2 hv2]
    rw [show ((1 - 0.06 * 0.92) * (s.current (3 * p) - s.target (3 * p))) ^ 2 +
        ((1 - 0.06 * 0.92) * (s.current (3 * p + 1) - s.target (3 * p + 1))) ^ 2 +
        ((1 - 0.06 * 0.92) * (s.current (3 * p + 2) - s.target (3 * p + 2))) ^ 2 =
        (1 - 0.06 * 0.92) ^ 2 *
          ((s.current (3 * p) - s.target (3 * p)) ^ 2 +
            (s.current (3 * p + 1) - s.target (3 * p + 1)) ^ 2 +
            (s.current (3 * p + 2) - s.target (3 * p + 2)) ^ 2) from by ring]
    rw [Real.sqrt_mul (by positivity), Real.sqrt_sq (by norm_num)]

/-- Witness for C3's amended statement at the rest state. -/
theorem C3_morph_amended_witness :
    (triggerTransition .morph zeroRng zeroArr initSimState).target = zeroArr ∧
    ((frameStep noHands (1 / 60))^[1] initSimState).active = false ∧
    particleDist (frameStep noHands (1 / 60) initSimState) 0 =
      (1 - 0.06 * 0.92) * particleDist initSimState 0 := by
  refine ⟨(C3_morph_amended.1 zeroRng zeroArr initSimState).2.2,
    (C3_morph_amended.2.1 noHands (1 / 60) initSimState rfl 1).2,
    C3_morph_amended.2.2 noHands (1 / 60) initSimState 0 rfl
      (by norm_num [PARTICLE_COUNT]) rfl rfl rfl ?_ ?_ ?_ ?_⟩ <;>
    · obtain ⟨hgs, hx, hy, hz⟩ := gestureUpdate_noHands_fields initSimState
      first
        | (rw [hgs]; norm_num [initSimState])
        | (rw [hx]; norm_num [initSimState])
        | (rw [hy]; norm_num [initSimState])
        | (rw [hz]; norm_num [initSimState])

theorem abs_mul_le_of_le_one {a b R : ℝ} (ha : |a| ≤ R) (hb : |b| ≤ 1) :
    |a * b| ≤ R := by
  rw [abs_mul]
  calc |a| * |b| ≤ R * 1 :=
        mul_le_mul ha hb (abs_nonneg b) (le_trans (abs_nonneg a) ha)
    _ = R := mul_one R

theorem abs_sin_le (x : ℝ) : |Real.sin x| ≤ 1 :=
  abs_le.mpr ⟨Real.neg_one_le_sin x, Real.sin_le_one x⟩

theorem abs_cos_le (x : ℝ) : |Real.cos x| ≤ 1 :=
  abs_le.mpr ⟨Real.neg_one_le_cos x, Real.cos_le_one x⟩

theorem rng_pow_mem {u : ℝ} (hu0 : 0 ≤ u) (hu1 : u < 1) (e : ℝ) (he : 0 ≤ e) :
    0 ≤ u ^ e ∧ u ^ e ≤ 1 :=
  ⟨Real.rpow_nonneg hu0 e, Real.rpow_le_one hu0 (le_of_lt hu1) he⟩

theorem jitter_abs_le {u v amt B : ℝ} (hu0 : 0 ≤ u) (hu1 : u < 1)
    (hv : |v| ≤ B) (hamt : 0 ≤ amt) : |jitterT u v amt| ≤ B + 0.5 * amt := by
  unfold jitterT
  have h1 : |u - 0.5| ≤ 0.5 := abs_le.mpr ⟨by linarith, by linarith⟩
  calc |v + (u - 0.5) * amt| ≤ |v| + |(u - 0.5) * amt| := abs_add _ _
    _ ≤ B + 0.5 * amt := by
        rw [abs_mul, abs_of_nonneg hamt]
        have := mul_le_mul_of_nonneg_right h1 hamt
        linarith

theorem lerp_abs_le {a b l B : ℝ} (ha : |a| ≤ B) (hb : |b| ≤ B)
    (hl0 : 0 ≤ l) (hl1 : l < 1) : |a + (b - a) * l| ≤ B := by
  have h : a + (b - a) * l = a * (1 - l) + b * l := by ring
  rw [h]
  calc |a * (1 - l) + b * l| ≤ |a * (1 - l)| + |b * l| := abs_add _ _
    _ = |a| * (1 - l) + |b| * l := by
        rw [abs_mul, abs_mul, abs_of_nonneg (by linarith : (0:ℝ) ≤ 1 - l),
          abs_of_nonneg hl0]
    _ ≤ B * (1 - l) + B * l := by
        have h1 := mul_le_mul_of_nonneg_right ha
          (by linarith : (0:ℝ) ≤ 1 - l)
        have h2 := mul_le_mul_of_nonneg_right hb hl0
        linarith
    _ = B := by ring

theorem length_flatMap_triple {α : Type} (n : ℕ) (f : ℕ → List α)
    (hf : ∀ i, (f i).length = 3) :
    ((List.range n).flatMap f).length = n * 3 := by
  induction n with
  | zero => simp
  | succ k ih =>
    rw [List.range_succ, List.flatMap_append, List.length_append, ih]
    simp [hf]
    omega

theorem generateCosmos_length (count : ℕ) (scale : ℝ) (r : ℕ → ℝ) :
    (generateCosmos count scale r).length = count * 3 := by
  unfold generateCosmos
  exact length_flatMap_triple count _ (fun i => by split <;> rfl)

theorem generateCosmos_bound (count : ℕ) (scale : ℝ) (r : ℕ → ℝ)
    (hr : validRng r) (hs : 0 < scale) :
    ∀ x ∈ generateCosmos count scale r, |x| ≤ 3 * scale := by
  intro x hx
  unfold generateCosmos at hx
  rw [List.mem_flatMap] at hx
  obtain ⟨i, -, hmem⟩ := hx
  have hrad : 0 ≤ (if i < count * 2 / 10 then
      r (3 * i + 2) ^ (0.5 : ℝ) * scale
      else scale + r (3 * i + 2) ^ (1.2 : ℝ) * (scale * 3 - scale)) ∧
      (if i < count * 2 / 10 then r (3 * i + 2) ^ (0.5 : ℝ) * scale
      else scale + r (3 * i + 2) ^ (1.2 : ℝ) * (scale * 3 - scale)) ≤
        3 * scale := by
    obtain ⟨hu0, hu1⟩ := hr (3 * i + 2)
    split
    · obtain ⟨hp0, hp1⟩ := rng_pow_mem hu0 hu1 0.5 (by norm_num)
      constructor
      · positivity
      · nlinarith
    · obtain ⟨hp0, hp1⟩ := rng_pow_mem hu0 hu1 1.2 (by norm_num)
      constructor
      · nlinarith
      · nlinarith
  simp only [List.mem_cons, List.not_mem_nil, or_false] at hmem
  have habs : |(if i < count * 2 / 10 then r (3 * i + 2) ^ (0.5 : ℝ) * scale
      else scale + r (3 * i + 2) ^ (1.2 : ℝ) * (scale * 3 - scale))| ≤
      3 * scale := by
    rw [abs_of_nonneg hrad.1]; exact hrad.2
  rcases hmem with h | h | h <;> subst h
  · exact abs_mul_le_of_le_one
      (abs_mul_le_of_le_one habs (abs_sin_le _)) (abs_cos_le _)
  · exact abs_mul_le_of_le_one
      (abs_mul_le_of_le_one habs (abs_sin_le _)) (abs_sin_le _)
  · exact abs_mul_le_of_le_one habs (abs_cos_le _)

theorem generateHeart_length (count : ℕ) (scale : ℝ) (r : ℕ → ℝ) :
    (generateHeart count scale r).length = count * 3 := by
  unfold generateHeart
  exact length_flatMap_triple count _ (fun i => rfl)

theorem scaled_term_bound {val rad scale M : ℝ} (hval : |val| ≤ M)
    (hrad : |rad| ≤ 1) (hs : 0 < scale) :
    |val * 0.06 * scale * rad| ≤ M * (0.06 * scale) := by
  apply abs_mul_le_of_le_one _ hrad
  rw [show val * 0.06 * scale = val * (0.06 * scale) by ring, abs_mul,
    abs_of_nonneg (by positivity : (0:ℝ) ≤ 0.06 * scale)]
  exact mul_le_mul_of_nonneg_right hval (by positivity)

theorem generateHeart_bound (count : ℕ) (scale : ℝ) (r : ℕ → ℝ)
    (hr : validRng r) (hs : 0 < scale) :
    ∀ x ∈ generateHeart count scale r, |x| ≤ 2 * scale := by
  intro w hw
  unfold generateHeart at hw
  rw [List.mem_flatMap] at hw
  obtain ⟨i, -, hmem⟩ := hw
  simp only [List.mem_cons, List.not_mem_nil, or_false] at hmem
  have hrad : |0.3 + r (7 * i + 2) * 0.7| ≤ 1 := by
    obtain ⟨h0, h1⟩ := hr (7 * i + 2)
    rw [abs_of_nonneg (by linarith)]
    linarith
  have hx : |16 * Real.sin (r (7 * i) * Real.pi * 2) ^ 3| ≤ 16 := by
    rw [abs_mul, abs_of_nonneg (by norm_num : (0:ℝ) ≤ 16), abs_pow]
    have h1 : |Real.sin (r (7 * i) * Real.pi * 2)| ^ 3 ≤ 1 :=
      pow_le_one₀ (abs_nonneg _) (abs_sin_le _)
    linarith
  have hy : |13 * Real.cos (r (7 * i) * Real.pi * 2) -
      5 * Real.cos (2 * (r (7 * i) * Real.pi * 2)) -
      2 * Real.cos (3 * (r (7 * i) * Real.pi * 2)) -
      Real.cos (4 * (r (7 * i) * Real.pi * 2))| ≤ 21 := by
    have c1l := Real.neg_one_le_cos (r (7 * i) * Real.pi * 2)
    have c1u := Real.cos_le_one (r (7 * i) * Real.pi * 2)
    have c2l := Real.neg_one_le_cos (2 * (r (7 * i) * Real.pi * 2))
    have c2u := Real.cos_le_one (2 * (r (7 * i) * Real.pi * 2))
    have c3l := Real.neg_one_le_cos (3 * (r (7 * i) * Real.pi * 2))
    have c3u := Real.cos_le_one (3 * (r (7 * i) * Real.pi * 2))
    have c4l := Real.neg_one_le_cos (4 * (r (7 * i) * Real.pi * 2))
    have c4u := Real.cos_le_one (4 * (r (7 * i) * Real.pi * 2))
    exact abs_le.mpr ⟨by linarith, by linarith⟩
  have hz : |(r (7 * i + 3) - 0.5) * 8 * Real.sin (r (7 * i + 1) * Real.pi)|
      ≤ 4 := by
    apply abs_mul_le_of_le_one _ (abs_sin_le _)
    obtain ⟨h0, h1⟩ := hr (7 * i + 3)
    rw [abs_mul, abs_of_nonneg (by norm_num : (0:ℝ) ≤ 8)]
    have : |r (7 * i + 3) - 0.5| ≤ 0.5 := abs_le.mpr ⟨by linarith, by linarith⟩
    linarith
  rcases hmem with h | h | h <;> subst h
  · have := jitter_abs_le (hr (7 * i + 4)).1 (hr (7 * i + 4)).2
      (scaled_term_bound hx hrad hs) (by positivity : (0:ℝ) ≤ 0.15 * scale)
    nlinarith
  · have := jitter_abs_le (hr (7 * i + 5)).1 (hr (7 * i + 5)).2
      (scaled_term_bound hy hrad hs) (by positivity : (0:ℝ) ≤ 0.15 * scale)
    nlinarith
  · have := jitter_abs_le (hr (7 * i + 6)).1 (hr (7 * i + 6)).2
      (scaled_term_bound hz hrad hs) (by positivity : (0:ℝ) ≤ 0.15 * scale)
    nlinarith

theorem length_append_triples {α : Type} (m n : ℕ) (f g : ℕ → List α)
    (hf : ∀ i, (f i).length = 3) (hg : ∀ i, (g i).length = 3) :
    ((List.range m).flatMap f ++ (List.range n).flatMap g).length =
      m * 3 + n * 3 := by
  rw [List.length_append, length_flatMap_triple m f hf,
    length_flatMap_triple n g hg]

theorem generateSaturn_length (count : ℕ) (scale : ℝ) (r : ℕ → ℝ) :
    (generateSaturn count scale r).length = count * 3 := by
  unfold generateSaturn
  refine Eq.trans (length_append_triples _ _ _ _ ?_ ?_) ?_
  · exact fun i => rfl
  · exact fun i => rfl
  · omega

theorem generateSaturn_bound (count : ℕ) (scale : ℝ) (r : ℕ → ℝ)
    (hr : validRng r) (hs : 0 < scale) :
    ∀ x ∈ generateSaturn count scale r, |x| ≤ 2 * scale := by
  intro w hw
  unfold generateSaturn at hw
  rw [List.mem_append] at hw
  rcases hw with hw | hw <;> rw [List.mem_flatMap] at hw <;>
    obtain ⟨i, -, hmem⟩ := hw <;>
    simp only [List.mem_cons, List.not_mem_nil, or_false] at hmem
  · -- planet sphere particle
    have hrad : |r (3 * i + 2) ^ (0.33 : ℝ) * scale * 0.5| ≤ 2 * scale := by
      obtain ⟨h0, h1⟩ := hr (3 * i + 2)
      obtain ⟨hp0, hp1⟩ := rng_pow_mem h0 h1 0.33 (by norm_num)
      rw [abs_of_nonneg (by positivity)]
      nlinarith
    rcases hmem with h | h | h <;> subst h
    · exact abs_mul_le_of_le_one
        (abs_mul_le_of_le_one hrad (abs_sin_le _)) (abs_cos_le _)
    · exact abs_mul_le_of_le_one
        (abs_mul_le_of_le_one
          (abs_mul_le_of_le_one hrad (abs_sin_le _)) (abs_sin_le _))
        (by rw [abs_of_nonneg] <;> norm_num)
    · exact abs_mul_le_of_le_one hrad (abs_cos_le _)
  · -- ring particle
    have hrad : |scale * (0.7 + r (3 * (count * 45 / 100) + 3 * i + 1) * 0.6)|
        ≤ 2 * scale := by
      obtain ⟨h0, h1⟩ := hr (3 * (count * 45 / 100) + 3 * i + 1)
      rw [abs_of_nonneg (by nlinarith)]
      nlinarith
    rcases hmem with h | h | h <;> subst h
    · exact abs_mul_le_of_le_one hrad (abs_cos_le _)
    · have := jitter_abs_le (hr (3 * (count * 45 / 100) + 3 * i + 2)).1
        (hr (3 * (count * 45 / 100) + 3 * i + 2)).2
        (by rw [abs_zero] : |(0 : ℝ)| ≤ 0)
        (by positivity : (0:ℝ) ≤ 0.03 * scale)
      nlinarith
    · exact abs_mul_le_of_le_one hrad (abs_sin_le _)

theorem generateDNA_length (count : ℕ) (scale : ℝ) (r : ℕ → ℝ) :
    (generateDNA count scale r).length = count * 3 := by
  unfold generateDNA
  refine Eq.trans (length_append_triples _ _ _ _ ?_ ?_) ?_
  · exact fun i => rfl
  · exact fun i => rfl
  · omega

theorem div_index_bound {i h : ℕ} (hih : i < h) :
    0 ≤ (i : ℝ) / (h : ℝ) ∧ (i : ℝ) / (h : ℝ) < 1 := by
  have hh : (0 : ℝ) < (h : ℝ) := by
    have : 0 < h := by omega
    exact_mod_cast this
  constructor
  · positivity
  · rw [div_lt_one hh]
    exact_mod_cast hih

theorem y_span_bound {q scale : ℝ} (hq0 : 0 ≤ q) (hq1 : q < 1)
    (hs : 0 < scale) : |(q - 0.5) * scale * 2| ≤ scale := by
  have h1 : |q - 0.5| ≤ 0.5 := abs_le.mpr ⟨by linarith, by linarith⟩
  rw [show (q - 0.5) * scale * 2 = (q - 0.5) * (scale * 2) by ring, abs_mul,
    abs_of_nonneg (by positivity : (0:ℝ) ≤ scale * 2)]
  nlinarith

theorem strand_term_bound (scale c : ℝ) (hs : 0 < scale) (hc : |c| ≤ 1) :
    |scale * 0.3 * c| ≤ scale * 0.3 :=
  abs_mul_le_of_le_one
    (by rw [abs_of_nonneg (by positivity : (0:ℝ) ≤ scale * 0.3)]) hc

theorem generateDNA_bound (count : ℕ) (scale : ℝ) (r : ℕ → ℝ)
    (hr : validRng r) (hs : 0 < scale) :
    ∀ x ∈ generateDNA count scale r, |x| ≤ 2 * scale := by
  intro w hw
  unfold generateDNA at hw
  rw [List.mem_append] at hw
  rcases hw with hw | hw <;> rw [List.mem_flatMap] at hw <;>
    obtain ⟨i, hi, hmem⟩ := hw <;> rw [List.mem_range] at hi <;>
    simp only [List.mem_cons, List.not_mem_nil, or_false] at hmem
  · -- helix strand particle
    obtain ⟨hq0, hq1⟩ := div_index_bound hi
    rcases hmem with h | h | h <;> subst h
    · refine le_trans (jitter_abs_le (hr (3 * i)).1 (hr (3 * i)).2
        (strand_term_bound scale _ hs (abs_cos_le _))
        (by positivity : (0:ℝ) ≤ 0.05 * scale)) (by nlinarith)
    · refine le_trans (jitter_abs_le (hr (3 * i + 1)).1 (hr (3 * i + 1)).2
        (y_span_bound hq0 hq1 hs)
        (by positivity : (0:ℝ) ≤ 0.03 * scale)) (by nlinarith)
    · refine le_trans (jitter_abs_le (hr (3 * i + 2)).1 (hr (3 * i + 2)).2
        (strand_term_bound scale _ hs (abs_sin_le _))
        (by positivity : (0:ℝ) ≤ 0.05 * scale)) (by nlinarith)
  · -- connector rung particle
    obtain ⟨hq0, hq1⟩ := div_index_bound hi
    rcases hmem with h | h | h <;> subst h
    · refine le_trans (lerp_abs_le (strand_term_bound scale _ hs (abs_cos_le _))
        (strand_term_bound scale _ hs (abs_cos_le _))
        (hr (3 * (count * 7 / 10) + 2 * i)).1
        (hr (3 * (count * 7 / 10) + 2 * i)).2) (by nlinarith)
    · refine le_trans (jitter_abs_le (hr (3 * (count * 7 / 10) + 2 * i + 1)).1
        (hr (3 * (count * 7 / 10) + 2 * i + 1)).2
        (y_span_bound hq0 hq1 hs)
        (by positivity : (0:ℝ) ≤ 0.02 * scale)) (by nlinarith)
    · refine le_trans (lerp_abs_le (strand_term_bound scale _ hs (abs_sin_le _))
        (strand_term_bound scale _ hs (abs_sin_le _))
        (hr (3 * (count * 7 / 10) + 2 * i)).1
        (hr (3 * (count * 7 / 10) + 2 * i)).2) (by nlinarith)

/-- Claim C4: for every shape-template generator in the catalog, any
particle count (hence in particular 0, 1 and 1000), any positive scale, and
any Math.random() stream, the generator returns exactly count * 3
coordinates, count = 0 yields the empty array without error, and every
coordinate is bounded in absolute value by C * scale for the documented
per-shape constant C (3 for cosmos, 2 for heart, saturn and dna); in this
real-valued model the bound also witnesses that every coordinate is a
well-defined finite real. -/
theorem C4_template_bounds (tpl : String × (ℕ → ℝ → (ℕ → ℝ) → List ℝ))
    (htpl : tpl ∈ PARTICLE_TEMPLATES) (count : ℕ) (scale : ℝ) (r : ℕ → ℝ)
    (hr : validRng r) (hs : 0 < scale) :
    (tpl.2 count scale r).length = count * 3 ∧
    tpl.2 0 scale r = [] ∧
    ∀ x ∈ tpl.2 count scale r, |x| ≤ shapeBound tpl.1 * scale := by
  have hcases : tpl = (("cosmos"), generateCosmos) ∨
      tpl = (("heart"), generateHeart) ∨
      tpl = (("saturn"), generateSaturn) ∨
      tpl = (("dna"), generateDNA) := by
    simpa [PARTICLE_TEMPLATES] using htpl
  have hempty : ∀ f : ℕ → ℝ → (ℕ → ℝ) → List ℝ,
      (f 0 scale r).length = 0 * 3 → f 0 scale r = [] := by
    intro f hf
    rw [Nat.zero_mul] at hf
    exact List.eq_nil_of_length_eq_zero hf
  rcases hcases with h | h | h | h <;> subst h
  · refine ⟨generateCosmos_length count scale r,
      hempty _ (generateCosmos_length 0 scale r), ?_⟩
    intro x hx
    have hb := generateCosmos_bound count scale r hr hs x hx
    calc |x| ≤ 3 * scale := hb
      _ = shapeBound ("cosmos") * scale := by rw [shapeBound, if_pos rfl]
  · refine ⟨generateHeart_length count scale r,
      hempty _ (generateHeart_length 0 scale r), ?_⟩
    intro x hx
    have hb := generateHeart_bound count scale r hr hs x hx
    calc |x| ≤ 2 * scale := hb
      _ = shapeBound ("heart") * scale := by
          rw [shapeBound, if_neg (by decide)]
  · refine ⟨generateSaturn_length count scale r,
      hempty _ (generateSaturn_length 0 scale r), ?_⟩
    intro x hx
    have hb := generateSaturn_bound count scale r hr hs x hx
    calc |x| ≤ 2 * scale := hb
      _ = shapeBound ("saturn") * scale := by
          rw [shapeBound, if_neg (by decide)]
  · refine ⟨generateDNA_length count scale r,
      hempty _ (generateDNA_length 0 scale r), ?_⟩
    intro x hx
    have hb := generateDNA_bound count scale r hr hs x hx
    calc |x| ≤ 2 * scale := hb
      _ = shapeBound ("dna") * scale := by
          rw [shapeBound, if_neg (by decide)]

/-- Witness for C4: the cosmos catalog entry at count 1, scale 1, and the
zero random stream. -/
theorem C4_template_bounds_witness :
    (generateCosmos 1 1 zeroRng).length = 1 * 3 ∧
    generateCosmos 0 1 zeroRng = [] ∧
    ∀ x ∈ generateCosmos 1 1 zeroRng, |x| ≤ shapeBound ("cosmos") * 1 :=
  C4_template_bounds (("cosmos"), generateCosmos)
    (by simp [PARTICLE_TEMPLATES]) 1 1 zeroRng
    (fun n => by norm_num [zeroRng]) (by norm_num)
